import Mathlib

/-!
Token budgeting and video-job orchestration of the Telegram / Azure OpenAI bot

Shallow embedding of `telegram-go-bot-host/services/openai.go`
(`GetModelMaxTokens`, `CountTokens`, `TrimMessages`), of the model-limit
table of `telegram-go-bot-host/config/config.go` and of
`merged-go-bot/services/sora.go` (`GenerateVideo`) and of the webhook, chat and video
handlers of both bots, followed by the properties of the token budgeting engine, of the
job orchestrator and of the handlers.

Conventions of the embedding

* Go `int` values that are configuration (`modelTokenLimits`, `reservedTokens`)
  are `Int`; the one subtraction performed on them is wrapped to 64 bits.
* Token counts are sums of slice lengths and are `Nat`.
* `(int, error)` results are `Except String Nat`; where the Go caller reads the
  integer of a failed call it reads the `0` that the failing `return` wrote.
* `log.Printf` calls have no effect on the returned values and are left out.
* `tokenizer.GetEncoding` of the external tiktoken package is a parameter, a function
  of the encoding name: the package answers a name the same way every time it is asked.
-/

set_option autoImplicit false

namespace TelegramBot

/-! ## Data model -/

/-- Modelled from the spec: the `Message` record of `telegram-go-bot-host/models`
(`{role, content}`), the same declaration as `merged-go-bot/models/models.go`. -/
structure Message where
  Role : String
  Content : String
deriving DecidableEq

/-- An encoding of the tiktoken package. `Encode(text, allowed, disallowed)` is only
ever called with both special-token sets empty, so it is a function of the text. -/
structure Tiktoken where
  Encode : String → List Int

/-- The tiktoken package as seen by the service: `GetEncoding(name)` returns an
encoding or an error. -/
structure Tokenizer where
  GetEncoding : String → Except String Tiktoken

/-- The fields of `OpenAIService`; `modelTokenLimits` is a Go `map[string]int`. -/
structure OpenAIService where
  endpoint : String
  apiVersion : String
  defaultDeployment : String
  modelTokenLimits : String → Option Int
  reservedTokens : Int
  apiKey : String

/-- Two's-complement wrap of a mathematical integer to a Go `int` (64 bits). -/
def wrapInt64 (x : Int) : Int :=
  (x + 9223372036854775808) % 18446744073709551616 - 9223372036854775808

/-! ## config.go: the model-limit table -/

/-- The map literal `ModelTokenLimits` of `LoadConfig`. -/
def ModelTokenLimitsTable : List (String × Int) :=
  [ ("gpt-35-turbo", 4096),
    ("gpt-35-turbo-16k", 16384),
    ("gpt-4", 8192),
    ("gpt-4-32k", 32768),
    ("gpt-4o", 128000),
    ("gpt-4o-mini", 128000),
    ("gpt-4.1-nano-deployment", 1000000),
    ("gpt-4.1-nano", 1000000) ]

/-- Lookup in the map built from the literal. -/
def ModelTokenLimits (modelName : String) : Option Int :=
  ModelTokenLimitsTable.lookup modelName

/-- The constant `ReservedForResponseTokens` of `LoadConfig`. -/
def ReservedForResponseTokens : Int := 500

/-- Constructor `NewOpenAIService(cfg)` for the configuration produced by `LoadConfig`; the
three strings read from the environment are parameters. -/
def NewOpenAIService (endpoint apiKey : String) : OpenAIService :=
  { endpoint := endpoint
    apiVersion := "2024-12-01-preview"
    defaultDeployment := "gpt-4.1-nano"
    modelTokenLimits := ModelTokenLimits
    reservedTokens := ReservedForResponseTokens
    apiKey := apiKey }

/-! ## openai.go -/

/-- Method `GetModelMaxTokens` (openai.go 38-43): table lookup, `4096` when the key is
absent. -/
def OpenAIService.GetModelMaxTokens (s : OpenAIService) (modelName : String) : Int :=
  match s.modelTokenLimits modelName with
  | some limit => limit
  | none => 4096

/-- The `switch modelName` at the head of `CountTokens`. -/
def encodingNameFor (modelName : String) : String :=
  if modelName = "gpt-35-turbo" ∨ modelName = "gpt-4" ∨ modelName = "gpt-4o-mini" then
    "cl100k_base"
  else if modelName = "gpt-4o" then
    "o200k_base"
  else
    "cl100k_base"

/-- The body of the `for _, msg := range messages` loop of `CountTokens`. -/
def countStep (enc : Tiktoken) (totalTokens : Nat) (msg : Message) : Nat :=
  totalTokens + (enc.Encode msg.Role).length + (enc.Encode msg.Content).length

/-- The counting part of `CountTokens` once an encoding has been obtained:
the loop from `totalTokens := 0`, then `totalTokens += 3`. -/
def countWith (enc : Tiktoken) (messages : List Message) : Nat :=
  messages.foldl (countStep enc) 0 + 3

/-- Method `CountTokens` (openai.go 45-73): choose the encoding name, fetch it, fall back
to `cl100k_base`,
fail when the fallback fails as well. -/
def OpenAIService.CountTokens (tk : Tokenizer) (_s : OpenAIService) (modelName : String)
    (messages : List Message) : Except String Nat :=
  match tk.GetEncoding (encodingNameFor modelName) with
  | .ok enc => .ok (countWith enc messages)
  | .error _ =>
    match tk.GetEncoding "cl100k_base" with
    | .ok enc => .ok (countWith enc messages)
    | .error err => .error ("無法獲取 cl100k_base 編碼: " ++ err)

/-- The local `maxTokens` of `TrimMessages`. -/
def OpenAIService.budget (s : OpenAIService) (modelName : String) : Int :=
  wrapInt64 (s.GetModelMaxTokens modelName - s.reservedTokens)

/-- First loop of `TrimMessages`: one step of collecting the system messages and
counting them. -/
def collectStep (acc : List Message × Nat) (msg : Message) : List Message × Nat :=
  if msg.Role = "system" then (acc.1 ++ [msg], acc.2 + 1) else acc

/-- First loop of `TrimMessages`: `(trimmedMessages, systemMessageCount)`. -/
def collectSystem (messages : List Message) : List Message × Nat :=
  messages.foldl collectStep ([], 0)

/-- Second loop of `TrimMessages`, `for i := len(messages) - 1; i >= systemMessageCount; i--`.
The recursion argument is `i + 1`, so that `0` stands for `i = -1`; the `none`
branch of the index lookup is never taken because `i < len(messages)`. -/
def trimLoop (tk : Tokenizer) (s : OpenAIService) (modelName : String) (maxTokens : Int)
    (messages : List Message) (systemMessageCount : Nat) :
    Nat → List Message → List Message
  | 0, trimmedMessages => trimmedMessages
  | i + 1, trimmedMessages =>
    if i < systemMessageCount then trimmedMessages
    else
      match messages[i]? with
      | none => trimmedMessages
      | some mi =>
        match s.CountTokens tk modelName (trimmedMessages ++ [mi]) with
        | .error _ => trimmedMessages
        | .ok tokens =>
          if (tokens : Int) > maxTokens then trimmedMessages
          else trimLoop tk s modelName maxTokens messages systemMessageCount i
            ([mi] ++ trimmedMessages)

/-- Method `TrimMessages` (openai.go 75-119). The guard on the budget comes first; a
failed first count returns the history with the `0` of the failed call; a history that
fits is returned as it is; otherwise the two loops run and the result is counted again
(a failure of that last count is discarded and leaves `0`). -/
def OpenAIService.TrimMessages (tk : Tokenizer) (s : OpenAIService) (modelName : String)
    (messages : List Message) : List Message × Nat :=
  let maxTokens := s.budget modelName
  if maxTokens ≤ 0 then ([], 0)
  else
    match s.CountTokens tk modelName messages with
    | .error _ => (messages, 0)
    | .ok currentTokens =>
      if (currentTokens : Int) ≤ maxTokens then (messages, currentTokens)
      else
        let start := collectSystem messages
        let trimmedMessages :=
          trimLoop tk s modelName maxTokens messages start.2 messages.length start.1
        let finalTokens :=
          match s.CountTokens tk modelName trimmedMessages with
          | .ok n => n
          | .error _ => 0
        (trimmedMessages, finalTokens)

/-! ## Vocabulary of the specification -/

/-- Estimated tokens of one message under an encoding: tokens of the role string
plus tokens of the content string. -/
def tokensOf (enc : Tiktoken) (msg : Message) : Nat :=
  (enc.Encode msg.Role).length + (enc.Encode msg.Content).length

/-- A message whose role is `system`. -/
def isSystem (msg : Message) : Bool := decide (msg.Role = "system")

/-- The scheme the specification associates with a model name: `o200k_base` for
`gpt-4o`, the default `cl100k_base` for every other name. -/
def selectedScheme (modelName : String) : String :=
  if modelName = "gpt-4o" then "o200k_base" else "cl100k_base"

/-! ## Concrete tokenizers and histories used in examples -/

/-- An encoding with one token per character. -/
def charEncoding : Tiktoken := { Encode := fun text => text.data.map (fun c => (c.toNat : Int)) }

/-- A tokenizer backend where both encodings are available. -/
def charTokenizer : Tokenizer :=
  { GetEncoding := fun name =>
      if name = "cl100k_base" ∨ name = "o200k_base" then .ok charEncoding
      else .error ("unknown encoding " ++ name) }

/-- A tokenizer backend whose encoding files cannot be obtained. -/
def offlineTokenizer : Tokenizer :=
  { GetEncoding := fun name => .error ("cannot load " ++ name) }

/-- A tokenizer backend where only the default encoding is available. -/
def fallbackTokenizer : Tokenizer :=
  { GetEncoding := fun name =>
      if name = "cl100k_base" then .ok charEncoding
      else .error ("cannot load " ++ name) }

/-- An encoding with two tokens per character. -/
def pairEncoding : Tiktoken :=
  { Encode := fun text => text.data.flatMap (fun c => [(c.toNat : Int), 0]) }

/-- A tokenizer backend whose two encodings differ: `cl100k_base` gives one token per
character, `o200k_base` two. -/
def twoSchemeTokenizer : Tokenizer :=
  { GetEncoding := fun name =>
      if name = "cl100k_base" then .ok charEncoding
      else if name = "o200k_base" then .ok pairEncoding
      else .error ("unknown encoding " ++ name) }

/-- A service with a one-entry limit table. -/
def smallService (limit reserved : Int) : OpenAIService :=
  { endpoint := "", apiVersion := "", defaultDeployment := "m"
    modelTokenLimits := fun name => if name = "m" then some limit else none
    reservedTokens := reserved, apiKey := "" }

/-- A text of `n` characters. -/
def longText (n : Nat) : String := String.mk (List.replicate n 'a')

/-! Short histories -/

def sys : Message := ⟨"system", "S"⟩
def u1 : Message := ⟨"user", "aaaa"⟩
def a1 : Message := ⟨"assistant", "bbbb"⟩
def u2 : Message := ⟨"user", "cc"⟩
def a2 : Message := ⟨"assistant", "dd"⟩
def u3 : Message := ⟨"user", "ee"⟩

/-! Histories that exceed the budget of `gpt-35-turbo` (4096 - 500) in the shipped
configuration -/

def brief : Message := ⟨"system", "be brief"⟩
def essay : Message := ⟨"user", longText 4000⟩
def hi : Message := ⟨"user", "hi"⟩

def q1 : Message := ⟨"user", longText 2000⟩
def r1 : Message := ⟨"assistant", longText 2000⟩
def q2 : Message := ⟨"user", longText 1000⟩
def r2 : Message := ⟨"assistant", longText 1000⟩
def q3 : Message := ⟨"user", longText 1000⟩

/-! ## merged-go-bot/services/sora.go

Conventions of the embedding

* The effects of `GenerateVideo` (messages sent through the bot, HTTP requests, the
  sleep between polls, file operations) are recorded in order as a list of `Event`s.
* The answers of the outside world are a `World`: the answer to the creation request, the
  script of answers to the successive status queries, the answer to the download request.
  When the script of status answers is used up the call is still inside its loop, waiting
  for the answer to the query it has just issued; this is the outcome `polling`.
* A decoded JSON document is a `JSON` value; a Go `map[string]interface{}` is an
  association list with the most recent binding first, the nil map being `[]`.
* `json.Marshal` of the request payload, a map of strings, cannot fail.
-/

/-- A JSON value as `encoding/json` stores it in an `interface{}`. -/
inductive JSON where
  | null
  | bool (b : Bool)
  | number (text : String)
  | str (s : String)
  | array (items : List JSON)
  | object (fields : List (String × JSON))

/-- A Go `map[string]interface{}`. -/
abbrev GoMap := List (String × JSON)

/-- Index expression `m[key]`: the stored value, the nil interface when the key is absent. -/
def GoMap.get (m : GoMap) (key : String) : JSON :=
  match m.lookup key with
  | some v => v
  | none => .null

/-- Type assertion `v.(string)`. -/
def JSON.asString : JSON → Option String
  | .str s => some s
  | _ => none

/-- Type assertion `v.([]interface{})`. -/
def JSON.asArray : JSON → Option (List JSON)
  | .array items => some items
  | _ => none

/-- Type assertion `v.(map[string]interface{})`: a decoded object is a map in which a
later duplicate key has replaced an earlier one. -/
def JSON.asMap : JSON → Option GoMap
  | .object fields => some fields.reverse
  | _ => none

/-- Call `json.Unmarshal(body, &m)` for a map `m` holding `old`. The argument is the decoded
body, or the syntax error of the decoder. A JSON object is stored key by key into the map
that is already there (`encoding/json`: "Unmarshal reuses the existing map, keeping
existing entries"), a new map being made only when `m` is nil; JSON `null` sets the map to
nil; any other JSON value is a type error. -/
def unmarshalInto (old : GoMap) : Except String JSON → Except String GoMap
  | .error err => .error err
  | .ok (.object fields) => .ok (fields.reverse ++ old)
  | .ok .null => .ok []
  | .ok (.bool _) =>
    .error "json: cannot unmarshal bool into Go value of type map[string]interface \x7b\x7d"
  | .ok (.number _) =>
    .error "json: cannot unmarshal number into Go value of type map[string]interface \x7b\x7d"
  | .ok (.str _) =>
    .error "json: cannot unmarshal string into Go value of type map[string]interface \x7b\x7d"
  | .ok (.array _) =>
    .error "json: cannot unmarshal array into Go value of type map[string]interface \x7b\x7d"

/-- An HTTP response as the service reads it: the status code, the bytes of the body and
what `encoding/json` makes of these bytes. -/
structure HttpResponse where
  StatusCode : Int
  Body : String
  Json : Except String JSON

/-- The fields of `SoraService` other than the bot handle. -/
structure SoraService where
  endpoint : String
  deploymentName : String
  apiVersion : String
  apiKey : String
  defaultWidth : Int
  defaultHeight : Int
  defaultNSeconds : Int

/-- The outside world of one call of `GenerateVideo`. -/
structure World where
  /-- Result of `http.NewRequest(method, url, body)`: an error or a request. -/
  NewRequest : String → String → Except String Unit
  /-- Result of `client.Do` for the creation request. -/
  create : Except String HttpResponse
  /-- Results of `client.Do` for the successive status queries. -/
  polls : List (Except String HttpResponse)
  /-- Result of `client.Do` for the download request. -/
  download : Except String HttpResponse
  /-- Value of `time.Now().Unix()` when the output file is named. -/
  now : Int
  /-- Result of `os.Create(path)`. -/
  osCreate : String → Except String Unit
  /-- Result of `io.Copy(file, body)`. -/
  ioCopy : Except String Unit

/-- An observable effect of the services and of the handlers. -/
inductive Event where
  | sendMessage (chatID : Int) (text : String)
  | submit (url : String) (payload : List (String × String))
  | sleep (seconds : Nat)
  | statusQuery (url : String)
  | download (url : String)
  | createFile (path : String)
  | copyBody (path : String)
  | openFile (path : String)
  | readFile (path : String)
  | sendVideo (chatID : Int) (name : String)
  | removeFile (path : String)
  | getRoomConfig (chatID : Int)
  | saveRoomConfig (chatID : Int)
  | getMessages (chatID : Int)
  | saveMessages (chatID : Int) (messages : List Message)
  | clearMessages (chatID : Int)
  | completion (apiKey deploymentName : String) (messages : List Message)
  | writeHeader (code : Nat)
deriving DecidableEq

/-- What a call of `GenerateVideo` has produced: the returned path, the returned error, or
nothing yet (`polling`). -/
inductive Outcome where
  | ok (outputPath : String)
  | error (msg : String)
  | polling
deriving DecidableEq

/-- Verb `%d` of `fmt` and `strconv.Itoa`. -/
def Itoa (n : Int) : String := toString n

/-- Call `strings.TrimSuffix(s, "/")`. -/
def trimSuffixSlash (s : String) : String :=
  match s.data.reverse with
  | '/' :: rest => String.mk rest.reverse
  | _ => s

/-- The local `createURL`. -/
def createURL (s : SoraService) : String :=
  trimSuffixSlash s.endpoint ++ "/openai/v1/video/generations/jobs?api-version=" ++ s.apiVersion

/-- The local `statusURL`. -/
def statusURL (s : SoraService) (jobID : String) : String :=
  trimSuffixSlash s.endpoint ++ "/openai/v1/video/generations/jobs/" ++ jobID ++
    "?api-version=" ++ s.apiVersion

/-- The local `videoURL`. -/
def videoURL (s : SoraService) (generationID : String) : String :=
  trimSuffixSlash s.endpoint ++ "/openai/v1/video/generations/" ++ generationID ++
    "/content/video?api-version=" ++ s.apiVersion

/-- Lines 49-102 of `GenerateVideo`: the submission. The result is the error returned
or the job id, with the effects so far. -/
def submitJob (w : World) (s : SoraService) (chatID : Int) (prompt : String) :
    Except (String × List Event) (String × List Event) :=
  let trace := [Event.sendMessage chatID "開始生成影片... 🎬"]
  let payload := [("model", s.deploymentName), ("prompt", prompt),
    ("width", Itoa s.defaultWidth), ("height", Itoa s.defaultHeight),
    ("n_seconds", Itoa s.defaultNSeconds), ("n_variants", Itoa 1)]
  match w.NewRequest "POST" (createURL s) with
  | .error err => .error ("SoraService: 建立影片生成請求失敗: " ++ err, trace)
  | .ok _ =>
    let trace := trace ++ [Event.submit (createURL s) payload]
    match w.create with
    | .error err => .error ("SoraService: 提交影片生成請求失敗: " ++ err, trace)
    | .ok resp =>
      if resp.StatusCode ≠ 201 then
        .error ("SoraService: 提交影片生成請求失敗，狀態碼: " ++ Itoa resp.StatusCode ++
          "，回應內容: " ++ resp.Body, trace)
      else
        match unmarshalInto [] resp.Json with
        | .error err => .error ("SoraService: 解析生成請求回應失敗: " ++ err, trace)
        | .ok createResult =>
          match (createResult.get "id").asString with
          | none => .error ("SoraService: 生成請求回應中未找到 job ID", trace)
          | some jobID =>
            .ok (jobID, trace ++ [Event.sendMessage chatID "開始輪詢影片生成狀態... 🔄"])

/-- Where the polling loop of `GenerateVideo` has got to. -/
inductive LoopResult where
  | exit (currentStatus : String) (statusResult : GoMap) (trace : List Event)
  | fail (msg : String) (trace : List Event)
  | polling (trace : List Event)

/-- Lines 104-141 of `GenerateVideo`: the polling loop, from the loop condition on, with
the variables `currentStatus` and `statusResult`, which are declared before the loop.
The first argument is what remains of the script of answers to the status queries; the
three clauses differ only in the answer that `client.Do` gives (none left, a transport
error, a response). -/
def pollLoop (w : World) (s : SoraService) (chatID : Int) (jobID : String) :
    List (Except String HttpResponse) → String → GoMap → List Event → LoopResult
  | [], currentStatus, statusResult, trace =>
    if currentStatus = "succeeded" ∨ currentStatus = "failed" ∨ currentStatus = "cancelled" then
      .exit currentStatus statusResult trace
    else
      match w.NewRequest "GET" (statusURL s jobID) with
      | .error err =>
        .fail ("SoraService: 建立狀態查詢請求失敗: " ++ err) (trace ++ [Event.sleep 5])
      | .ok _ => .polling (trace ++ [Event.sleep 5, Event.statusQuery (statusURL s jobID)])
  | .error doErr :: _, currentStatus, statusResult, trace =>
    if currentStatus = "succeeded" ∨ currentStatus = "failed" ∨ currentStatus = "cancelled" then
      .exit currentStatus statusResult trace
    else
      match w.NewRequest "GET" (statusURL s jobID) with
      | .error err =>
        .fail ("SoraService: 建立狀態查詢請求失敗: " ++ err) (trace ++ [Event.sleep 5])
      | .ok _ =>
        .fail ("SoraService: 查詢狀態失敗: " ++ doErr)
          (trace ++ [Event.sleep 5, Event.statusQuery (statusURL s jobID)])
  | .ok statusResp :: rest, currentStatus, statusResult, trace =>
    if currentStatus = "succeeded" ∨ currentStatus = "failed" ∨ currentStatus = "cancelled" then
      .exit currentStatus statusResult trace
    else
      match w.NewRequest "GET" (statusURL s jobID) with
      | .error err =>
        .fail ("SoraService: 建立狀態查詢請求失敗: " ++ err) (trace ++ [Event.sleep 5])
      | .ok _ =>
        if statusResp.StatusCode ≠ 200 then
          .fail ("SoraService: 查詢狀態請求失敗，狀態碼: " ++ Itoa statusResp.StatusCode ++
            "，回應內容: " ++ statusResp.Body)
            (trace ++ [Event.sleep 5, Event.statusQuery (statusURL s jobID)])
        else
          match unmarshalInto statusResult statusResp.Json with
          | .error err =>
            .fail ("SoraService: 解析狀態回應失敗: " ++ err)
              (trace ++ [Event.sleep 5, Event.statusQuery (statusURL s jobID)])
          | .ok statusResult =>
            match (statusResult.get "status").asString with
            | none =>
              .fail "SoraService: 狀態回應中未找到 \x27status\x27 字段"
                (trace ++ [Event.sleep 5, Event.statusQuery (statusURL s jobID)])
            | some tempStatus =>
              if currentStatus ≠ tempStatus then
                pollLoop w s chatID jobID rest tempStatus statusResult
                  (trace ++ [Event.sleep 5, Event.statusQuery (statusURL s jobID),
                    Event.sendMessage chatID ("Job 狀態: " ++ tempStatus)])
              else
                pollLoop w s chatID jobID rest currentStatus statusResult
                  (trace ++ [Event.sleep 5, Event.statusQuery (statusURL s jobID)])

/-- Lines 186-201 of `GenerateVideo`: the downloaded body is written to a file named
after the current time. -/
def saveVideo (w : World) (chatID : Int) (trace : List Event) : Outcome × List Event :=
  match w.osCreate ("tmp/" ++ ("sora_output_" ++ Itoa w.now ++ ".mp4")) with
  | .error err =>
    (.error ("SoraService: 建立檔案 " ++ ("tmp/" ++ ("sora_output_" ++ Itoa w.now ++ ".mp4")) ++
        " 失敗: " ++ err),
      trace ++ [Event.createFile ("tmp/" ++ ("sora_output_" ++ Itoa w.now ++ ".mp4"))])
  | .ok _ =>
    match w.ioCopy with
    | .error err =>
      (.error ("SoraService: 寫入影片檔案 " ++
          ("tmp/" ++ ("sora_output_" ++ Itoa w.now ++ ".mp4")) ++ " 失敗: " ++ err),
        trace ++ [Event.createFile ("tmp/" ++ ("sora_output_" ++ Itoa w.now ++ ".mp4")),
          Event.copyBody ("tmp/" ++ ("sora_output_" ++ Itoa w.now ++ ".mp4"))])
    | .ok _ =>
      (.ok ("tmp/" ++ ("sora_output_" ++ Itoa w.now ++ ".mp4")),
        trace ++ [Event.createFile ("tmp/" ++ ("sora_output_" ++ Itoa w.now ++ ".mp4")),
          Event.copyBody ("tmp/" ++ ("sora_output_" ++ Itoa w.now ++ ".mp4")),
          Event.sendMessage chatID
            ("影片已下載到伺服器: `" ++ ("sora_output_" ++ Itoa w.now ++ ".mp4") ++ "`")])

/-- Lines 143-185 of `GenerateVideo`: what follows the loop, up to the download. -/
def fetchVideo (w : World) (s : SoraService) (chatID : Int) (currentStatus : String)
    (statusResult : GoMap) (trace : List Event) : Outcome × List Event :=
  if currentStatus ≠ "succeeded" then
    (.error ("SoraService: 影片生成任務未成功。最終狀態: " ++ currentStatus),
      trace ++ [Event.sendMessage chatID
        ("影片生成任務未成功。最終狀態: " ++ currentStatus ++ " ❌")])
  else
    match (statusResult.get "generations").asArray with
    | none =>
      (.error "SoraService: 影片生成成功，但未找到影片內容。",
        trace ++ [Event.sendMessage chatID "✅ 影片生成成功。"])
    | some [] =>
      (.error "SoraService: 影片生成成功，但未找到影片內容。",
        trace ++ [Event.sendMessage chatID "✅ 影片生成成功。"])
    | some (first :: _) =>
      match first.asMap with
      | none =>
        (.error "SoraService: 無法解析生成結果。",
          trace ++ [Event.sendMessage chatID "✅ 影片生成成功。"])
      | some firstGeneration =>
        match (firstGeneration.get "id").asString with
        | none =>
          (.error "SoraService: 未找到 generation ID。",
            trace ++ [Event.sendMessage chatID "✅ 影片生成成功。"])
        | some generationID =>
          match w.NewRequest "GET" (videoURL s generationID) with
          | .error err =>
            (.error ("SoraService: 建立影片下載請求失敗: " ++ err),
              trace ++ [Event.sendMessage chatID "✅ 影片生成成功。",
                Event.sendMessage chatID "正在下載影片... 📥"])
          | .ok _ =>
            match w.download with
            | .error err =>
              (.error ("SoraService: 下載影片失敗: " ++ err),
                trace ++ [Event.sendMessage chatID "✅ 影片生成成功。",
                  Event.sendMessage chatID "正在下載影片... 📥",
                  Event.download (videoURL s generationID)])
            | .ok finalVideoResp =>
              if finalVideoResp.StatusCode ≠ 200 then
                (.error ("SoraService: 下載影片失敗，狀態碼: " ++
                  Itoa finalVideoResp.StatusCode ++ "，回應: " ++ finalVideoResp.Body),
                  trace ++ [Event.sendMessage chatID "✅ 影片生成成功。",
                    Event.sendMessage chatID "正在下載影片... 📥",
                    Event.download (videoURL s generationID)])
              else
                saveVideo w chatID
                  (trace ++ [Event.sendMessage chatID "✅ 影片生成成功。",
                    Event.sendMessage chatID "正在下載影片... 📥",
                    Event.download (videoURL s generationID)])

/-- Method `GenerateVideo` (sora.go 49-202): the submission, the polling loop started with
`currentStatus` empty and `statusResult` nil, and the retrieval. -/
def SoraService.GenerateVideo (w : World) (s : SoraService) (chatID : Int) (prompt : String) :
    Outcome × List Event :=
  match submitJob w s chatID prompt with
  | .error (msg, trace) => (.error msg, trace)
  | .ok (jobID, trace) =>
    match pollLoop w s chatID jobID w.polls "" [] trace with
    | .fail msg trace => (.error msg, trace)
    | .polling trace => (.polling, trace)
    | .exit currentStatus statusResult trace =>
      fetchVideo w s chatID currentStatus statusResult trace

/-! ## The handlers: merged-go-bot/handlers/handler.go and
telegram-go-bot-host/handlers/telegram.go

The key-value store, the completion endpoint and the file system are answered by a
`ChatWorld` and a `FileWorld`; the effects are `Event`s, in order.
-/

/-- The record `RoomConfig` of `merged-go-bot/models/models.go`, also used by
`telegram-go-bot-host`. -/
structure RoomConfig where
  ChatID : Int
  APIKey : String
  Approved : Bool
  ModelName : String

/-- The collaborators of the chat handlers. -/
structure ChatWorld where
  /-- Result of `redisSvc.GetMessages(chatID)`. -/
  GetMessages : Int → Except String (List Message)
  /-- Result of `openaiSvc.GetChatCompletion(apiKey, deploymentName, messages)`. -/
  GetChatCompletion : String → String → List Message → Except String String
  /-- Result of `redisSvc.SaveMessages(chatID, messages)`. -/
  SaveMessages : Int → List Message → Except String Unit

/-- The file system and the bot as seen by `handleVideoCommand` after a generation. -/
structure FileWorld where
  /-- Result of `os.Open(path)`. -/
  osOpen : String → Except String Unit
  /-- Result of `io.ReadAll(file)`. -/
  readAll : String → Except String Unit
  /-- Result of `bot.Send(videoMsg)`. -/
  sendVideo : Except String Unit

/-- Function `unicode.IsSpace`. -/
def isSpace (c : Char) : Bool :=
  (9 ≤ c.toNat && c.toNat ≤ 13) || c.toNat = 32 || c.toNat = 0x85 || c.toNat = 0xA0 ||
    c.toNat = 0x1680 || (0x2000 ≤ c.toNat && c.toNat ≤ 0x200A) || c.toNat = 0x2028 ||
    c.toNat = 0x2029 || c.toNat = 0x202F || c.toNat = 0x205F || c.toNat = 0x3000

/-- Function `strings.TrimSpace`. -/
def trimSpace (text : String) : String :=
  String.mk ((text.data.dropWhile isSpace).reverse.dropWhile isSpace).reverse

/-- Function `strings.TrimPrefix(text, lead)`. -/
def dropLeading (lead text : String) : String :=
  if text.data.take lead.data.length = lead.data then String.mk (text.data.drop lead.data.length)
  else text

/-- Function `filepath.Base` for the separator `/`. -/
def baseName (path : String) : String :=
  if path = "" then "."
  else
    match (path.data.reverse.dropWhile (fun c => c = '/')) with
    | [] => "/"
    | stripped => String.mk (stripped.takeWhile (fun c => c ≠ '/')).reverse

/-- Method `handleChatCompletion` of the merged bot (handler.go 133-161). `trim` is
`openaiSvc.TrimMessages`, whose file `merged-go-bot/services/openai.go` is not among the
sources; `deploymentName` is `cfg.DefaultOpenAIDeploymentName`. -/
def handleChatCompletion (cw : ChatWorld) (trim : String → List Message → List Message × Nat)
    (deploymentName : String) (chatID : Int) (text : String) : List Event :=
  match cw.GetMessages chatID with
  | .error _ => [Event.getMessages chatID]
  | .ok loaded =>
    if deploymentName = "" then
      [Event.getMessages chatID,
        Event.sendMessage chatID "預設模型部署名稱未設定，無法處理您的請求。請檢查 `.env` 檔案。"]
    else
      match cw.GetChatCompletion "" deploymentName
          (trim deploymentName (loaded ++ [⟨"user", text⟩])).1 with
      | .error _ =>
        [Event.getMessages chatID,
          Event.completion "" deploymentName
            (trim deploymentName (loaded ++ [⟨"user", text⟩])).1,
          Event.sendMessage chatID "從 AI 獲取回應時發生錯誤。"]
      | .ok response =>
        [Event.getMessages chatID,
          Event.completion "" deploymentName
            (trim deploymentName (loaded ++ [⟨"user", text⟩])).1,
          Event.saveMessages chatID (loaded ++ [⟨"user", text⟩] ++ [⟨"assistant", response⟩]),
          Event.sendMessage chatID response]

/-- Method `handleVideoCommand` of the merged bot (handler.go 163-207). While
`GenerateVideo` is polling the handler has done nothing more. -/
def handleVideoCommand (w : World) (fw : FileWorld) (s : SoraService) (chatID : Int)
    (text : String) : List Event :=
  if trimSpace (dropLeading "/video" text) = "" then
    [Event.sendMessage chatID "請在 `/video` 後面加上影片描述。"]
  else
    match s.GenerateVideo w chatID (trimSpace (dropLeading "/video" text)) with
    | (.polling, trace) => trace
    | (.error err, trace) => trace ++ [Event.sendMessage chatID ("影片生成失敗: " ++ err)]
    | (.ok filePath, trace) =>
      match fw.osOpen filePath with
      | .error _ =>
        trace ++ [Event.openFile filePath, Event.sendMessage chatID "無法開啟生成的影片檔案。"]
      | .ok _ =>
        match fw.readAll filePath with
        | .error _ =>
          trace ++ [Event.openFile filePath, Event.readFile filePath,
            Event.sendMessage chatID "無法讀取生成的影片檔案。"]
        | .ok _ =>
          match fw.sendVideo with
          | .error _ =>
            trace ++ [Event.openFile filePath, Event.readFile filePath,
              Event.sendVideo chatID (baseName filePath),
              Event.sendMessage chatID "發送影片失敗。", Event.removeFile filePath]
          | .ok _ =>
            trace ++ [Event.openFile filePath, Event.readFile filePath,
              Event.sendVideo chatID (baseName filePath), Event.removeFile filePath]

/-- Lines 98-141 of `HandleUpdate` of `telegram-go-bot-host`: the chat turn of an approved
room. `exceeds currentTokens maxTokens` is the floating-point comparison
`float64(currentTokens) > float64(maxTokens)*h.cfg.TokenWarningThreshold`. -/
def chatTurn (cw : ChatWorld) (tk : Tokenizer) (s : OpenAIService) (exceeds : Nat → Int → Bool)
    (roomConfig : RoomConfig) (chatID : Int) (messageText : String) : List Event :=
  match cw.GetMessages chatID with
  | .error _ =>
    [Event.getMessages chatID, Event.sendMessage chatID "發生內部錯誤，請稍後再試。",
      Event.writeHeader 500]
  | .ok loaded =>
    [Event.getMessages chatID] ++
    (if exceeds (s.TrimMessages tk roomConfig.ModelName (loaded ++ [⟨"user", messageText⟩])).2
        (s.GetModelMaxTokens roomConfig.ModelName) then
      [Event.sendMessage chatID
        "ℹ️ 對話歷史已過長，為保證 AI 回應品質，將自動清除部分早期對話。"]
    else []) ++
    [Event.completion roomConfig.APIKey roomConfig.ModelName
      (s.TrimMessages tk roomConfig.ModelName (loaded ++ [⟨"user", messageText⟩])).1] ++
    (match cw.GetChatCompletion roomConfig.APIKey roomConfig.ModelName
        (s.TrimMessages tk roomConfig.ModelName (loaded ++ [⟨"user", messageText⟩])).1 with
    | .error _ =>
      [Event.sendMessage chatID "AI 服務暫時不可用，請稍後再試或檢查配置。",
        Event.writeHeader 500]
    | .ok aiResponse =>
      [Event.saveMessages chatID
          (loaded ++ [⟨"user", messageText⟩] ++ [⟨"assistant", aiResponse⟩]),
        Event.sendMessage chatID aiResponse, Event.writeHeader 200])

/-- The texts sent to the user, in order. -/
def sentTexts (trace : List Event) : List String :=
  trace.filterMap (fun e => match e with
    | .sendMessage _ text => some text
    | _ => none)

/-- A completion endpoint that fails with the given error. -/
def failingChat (loaded : List Message) (err : String) : ChatWorld :=
  { GetMessages := fun _ => .ok loaded
    GetChatCompletion := fun _ _ _ => .error err
    SaveMessages := fun _ _ => .ok () }

/-- A file system in which every operation succeeds. -/
def plainFiles : FileWorld :=
  { osOpen := fun _ => .ok (), readAll := fun _ => .ok (), sendVideo := .ok () }

/-! ## The webhook entry points

An incoming request is its path and what `json.NewDecoder(r.Body).Decode(&update)` makes
of its body. Of a Telegram message the handlers read the chat id, the text, the user name
of the sender and the results of the library methods `IsCommand()` and `Command()`.
-/

/-- The parts of `tgbotapi.Message` that the handlers read. -/
structure IncomingMessage where
  ChatID : Int
  Text : String
  UserName : String
  IsCommand : Bool
  Command : String

/-- The part of `tgbotapi.Update` that the handlers read: `Message` is nil or a message. -/
structure Update where
  Message : Option IncomingMessage

/-- An incoming HTTP request: `r.URL.Path` and the decoded body or the decoding error. -/
structure Request where
  Path : String
  Body : Except String Update

/-- The key-value store as seen by the webhook handlers. `GetRoomConfig` answers `none`
when the room has no stored configuration. -/
structure RoomStore where
  /-- Result of `redisSvc.GetRoomConfig(chatID)`. -/
  GetRoomConfig : Int → Except String (Option RoomConfig)
  /-- Result of `redisSvc.SaveRoomConfig(config)`. -/
  SaveRoomConfig : RoomConfig → Except String Unit
  /-- Result of `redisSvc.ClearMessages(chatID)`. -/
  ClearMessages : Int → Except String Unit

/-- Function `strings.HasPrefix(text, lead)`. -/
def hasLeading (lead text : String) : Bool :=
  decide (text.data.take lead.data.length = lead.data)

/-- Method `handleGeneralCommands` of the merged bot (handler.go 91-102). -/
def handleGeneralCommands (chatID : Int) (command : String) : List Event :=
  if command = "start" then
    [Event.sendMessage chatID
      "歡迎使用，請輸入您想問的內容，或使用 `/get [提示詞]` 進行一次性查詢，或 `/video [提示詞]` 生成影片。"]
  else if command = "clear" then
    [Event.clearMessages chatID, Event.sendMessage chatID "聊天歷史已清除。"]
  else []

/-- Method `handleGetCommand` of the merged bot (handler.go 104-131). -/
def handleGetCommand (cw : ChatWorld) (deploymentName : String) (chatID : Int)
    (text : String) : List Event :=
  if trimSpace (dropLeading "/get" text) = "" then
    [Event.sendMessage chatID "請在 `/get` 後面加上您想問的問題。"]
  else if deploymentName = "" then
    [Event.sendMessage chatID "預設模型部署名稱未設定，無法處理您的請求。請檢查 `.env` 檔案。"]
  else
    match cw.GetChatCompletion "" deploymentName
        [⟨"user", trimSpace (dropLeading "/get" text)⟩] with
    | .error _ =>
      [Event.completion "" deploymentName [⟨"user", trimSpace (dropLeading "/get" text)⟩],
        Event.sendMessage chatID "從 AI 獲取回應時發生錯誤。"]
    | .ok response =>
      [Event.completion "" deploymentName [⟨"user", trimSpace (dropLeading "/get" text)⟩],
        Event.sendMessage chatID response]

/-- Lines 78-88 of `HandleTelegramWebhook`: the dispatch on the text of a message from an
approved room, with the final `w.WriteHeader(http.StatusOK)`, which is not reached while
`GenerateVideo` is polling. -/
def dispatchMessage (deploymentName : String) (cw : ChatWorld)
    (trim : String → List Message → List Message × Nat) (w : World) (fw : FileWorld)
    (s : SoraService) (message : IncomingMessage) : List Event :=
  if hasLeading "/get " message.Text then
    handleGetCommand cw deploymentName message.ChatID message.Text ++ [Event.writeHeader 200]
  else if hasLeading "/video " message.Text then
    handleVideoCommand w fw s message.ChatID message.Text ++
      (if trimSpace (dropLeading "/video" message.Text) ≠ "" ∧
          (s.GenerateVideo w message.ChatID
            (trimSpace (dropLeading "/video" message.Text))).1 = .polling then []
        else [Event.writeHeader 200])
  else if message.IsCommand then
    handleGeneralCommands message.ChatID message.Command ++ [Event.writeHeader 200]
  else if message.Text ≠ "" then
    handleChatCompletion cw trim deploymentName message.ChatID message.Text ++
      [Event.writeHeader 200]
  else [Event.writeHeader 200]

/-- Method `HandleTelegramWebhook` of the merged bot (handler.go 43-89). `token` is
`cfg.TelegramBotToken`, `deploymentName` is `cfg.DefaultOpenAIDeploymentName`. -/
def HandleTelegramWebhook (token deploymentName : String) (store : RoomStore)
    (cw : ChatWorld) (trim : String → List Message → List Message × Nat) (w : World)
    (fw : FileWorld) (s : SoraService) (req : Request) : List Event :=
  if req.Path ≠ "/telegram_webhook/" ++ token then [Event.writeHeader 401]
  else
    match req.Body with
    | .error _ => []
    | .ok update =>
      match update.Message with
      | none => [Event.writeHeader 200]
      | some message =>
        match store.GetRoomConfig message.ChatID with
        | .error _ => [Event.getRoomConfig message.ChatID, Event.writeHeader 200]
        | .ok none =>
          [Event.getRoomConfig message.ChatID,
            Event.sendMessage message.ChatID "此聊天室未被授權使用 AI 功能。請聯繫管理員。",
            Event.writeHeader 200]
        | .ok (some roomConfig) =>
          if roomConfig.Approved = false then
            [Event.getRoomConfig message.ChatID,
              Event.sendMessage message.ChatID "此聊天室未被授權使用 AI 功能。請聯繫管理員。",
              Event.writeHeader 200]
          else
            [Event.getRoomConfig message.ChatID] ++
              dispatchMessage deploymentName cw trim w fw s message

/-- Method `handleStartCommand` of the host bot (telegram.go 145-185). `apiKey` is
`cfg.AzureOpenAIAPIKey`, `defaultDeployment` is `cfg.DefaultOpenAIDeploymentName`. -/
def handleStartCommand (store : RoomStore) (apiKey defaultDeployment : String) (chatID : Int)
    (userName : String) : List Event :=
  match store.GetRoomConfig chatID with
  | .error _ =>
    [Event.getRoomConfig chatID, Event.sendMessage chatID "處理您的請求時發生內部錯誤。"]
  | .ok none =>
    match store.SaveRoomConfig ⟨chatID, apiKey, false, defaultDeployment⟩ with
    | .error _ =>
      [Event.getRoomConfig chatID, Event.saveRoomConfig chatID,
        Event.sendMessage chatID "無法初始化聊天室配置，請聯繫管理員。"]
    | .ok _ =>
      [Event.getRoomConfig chatID, Event.saveRoomConfig chatID,
        Event.sendMessage chatID
          ("您好 " ++ userName ++ "！此聊天室 ID 為 `" ++ Itoa chatID ++ "`。\n" ++
            "請管理員透過後台 API 審批即可啟用 AI 功能。")]
  | .ok (some roomConfig) =>
    if roomConfig.Approved = false then
      [Event.getRoomConfig chatID,
        Event.sendMessage chatID
          ("此聊天室 ID 為 `" ++ Itoa chatID ++ "`。AI 功能尚未啟用。\n" ++
            "請等待管理員審批。謝謝！")]
    else
      [Event.getRoomConfig chatID,
        Event.sendMessage chatID
          ("您好 " ++ userName ++ "！此聊天室 ID 為 `" ++ Itoa chatID ++ "`。\n" ++
            "AI 功能已啟用！您可以開始和我對話了。\n" ++
            "當前配置模型: `" ++ roomConfig.ModelName ++ "`。")]

/-- The text given to the model by the host bot: the trimmed text, without a leading
`/get ` (telegram.go 61 and 71-75). -/
def hostMessageText (text : String) : String :=
  if hasLeading "/get " (trimSpace text) then
    trimSpace (dropLeading "/get " (trimSpace text))
  else trimSpace text

/-- The text sent by the host bot to a room that is not enabled (telegram.go 87-88). -/
def hostNotEnabledText : String :=
  "此聊天室尚未啟用 AI 功能，請聯繫管理員審批。\n" ++
    "如果您是管理員，請確認該聊天室的配置已在 Redis 中設置為 `approved: true`。"

/-- The text sent by the merged bot to a room that is not authorised (handler.go 73). -/
def mergedNotAuthorisedText : String := "此聊天室未被授權使用 AI 功能。請聯繫管理員。"

/-- Method `HandleUpdate` of the host bot (telegram.go 37-142). `token`, `apiKey` and
`defaultDeployment` are the fields `TelegramBotToken`, `AzureOpenAIAPIKey` and
`DefaultOpenAIDeploymentName` of the configuration. The sender of a message is present. -/
def HandleUpdate (token apiKey defaultDeployment : String) (store : RoomStore)
    (cw : ChatWorld) (tk : Tokenizer) (s : OpenAIService) (exceeds : Nat → Int → Bool)
    (req : Request) : List Event :=
  if req.Path ≠ "/telegram_webhook/" ++ token then [Event.writeHeader 401]
  else
    match req.Body with
    | .error _ => [Event.writeHeader 400]
    | .ok update =>
      match update.Message with
      | none => [Event.writeHeader 200]
      | some message =>
        if hasLeading "/start" (trimSpace message.Text) then
          handleStartCommand store apiKey defaultDeployment message.ChatID message.UserName ++
            [Event.writeHeader 200]
        else
          match store.GetRoomConfig message.ChatID with
          | .error _ =>
            [Event.getRoomConfig message.ChatID,
              Event.sendMessage message.ChatID "發生內部錯誤，請稍後再試。",
              Event.writeHeader 500]
          | .ok none =>
            [Event.getRoomConfig message.ChatID,
              Event.sendMessage message.ChatID hostNotEnabledText, Event.writeHeader 200]
          | .ok (some roomConfig) =>
            if roomConfig.Approved = false ∨ roomConfig.APIKey = "" then
              [Event.getRoomConfig message.ChatID,
                Event.sendMessage message.ChatID hostNotEnabledText, Event.writeHeader 200]
            else
              [Event.getRoomConfig message.ChatID] ++
                chatTurn cw tk s exceeds roomConfig message.ChatID
                  (hostMessageText message.Text)

/-! Vocabulary and examples for the webhook handlers -/

/-- An effect that the handlers must not have for a room that is not approved: a
completion request, a video generation, a read or a write of the conversation history. -/
def Event.isGuarded : Event → Bool
  | .completion _ _ _ => true
  | .submit _ _ => true
  | .getMessages _ => true
  | .saveMessages _ _ => true
  | .clearMessages _ => true
  | _ => false

/-- A store that holds the given room configuration, or none. -/
def storeWith (roomConfig : Option RoomConfig) : RoomStore :=
  { GetRoomConfig := fun _ => .ok roomConfig
    SaveRoomConfig := fun _ => .ok ()
    ClearMessages := fun _ => .ok () }

/-- A completion endpoint that answers with the given reply. -/
def answeringChat (loaded : List Message) (reply : String) : ChatWorld :=
  { GetMessages := fun _ => .ok loaded
    GetChatCompletion := fun _ _ _ => .ok reply
    SaveMessages := fun _ _ => .ok () }

/-- A text message of user `ann` in chat 7. -/
def textFrom (text : String) : Request :=
  { Path := "/telegram_webhook/token"
    Body := .ok ⟨some ⟨7, text, "ann", false, ""⟩⟩ }

/-- A trimming function that keeps the last message only. -/
def keepLast (_modelName : String) (messages : List Message) : List Message × Nat :=
  (messages.drop (messages.length - 1), 0)

/-- A write of the conversation history. -/
def Event.isSave : Event → Bool
  | .saveMessages _ _ => true
  | _ => false

/-- A completion request. -/
def Event.isCompletion : Event → Bool
  | .completion _ _ _ => true
  | _ => false

/-! ## Vocabulary of the specification of the job orchestrator -/

/-- A terminal job status: `succeeded`, `failed` or `cancelled`. -/
def isTerminal (status : String) : Bool :=
  decide (status = "succeeded" ∨ status = "failed" ∨ status = "cancelled")

/-- The string field `key` of a body read on its own: the body is a JSON object and the
(last) value under `key` is a string. -/
def stringField (json : Except String JSON) (key : String) : Option String :=
  match json with
  | .ok (.object fields) => (GoMap.get fields.reverse key).asString
  | _ => none

/-- The status reported by a successful status response: HTTP 200 and a JSON object with a
string field `status`. -/
def reportedStatus : Except String HttpResponse → Option String
  | .ok resp => if resp.StatusCode = 200 then stringField resp.Json "status" else none
  | .error _ => none

/-- The job id carried by a successful creation response: HTTP 201 and a JSON object with
a string field `id`. -/
def createdJobID : Except String HttpResponse → Option String
  | .ok resp => if resp.StatusCode = 201 then stringField resp.Json "id" else none
  | .error _ => none

/-- Number of status queries for a script of reported statuses: one query, and one more
after every response whose status is not terminal, none after a terminal one. -/
def queriesExpected : List String → Nat
  | [] => 1
  | status :: rest => if isTerminal status then 1 else 1 + queriesExpected rest

/-- The statuses that are polled: the script up to its first terminal status. -/
def polled : List String → List String
  | [] => []
  | status :: rest => if isTerminal status then [status] else status :: polled rest

/-- The polls whose status differs from the status recorded after the previous poll. -/
def changes : String → List String → List String
  | _, [] => []
  | recorded, status :: rest =>
    if status = recorded then changes status rest else status :: changes status rest

/-- A status query. -/
def Event.isStatusQuery : Event → Bool
  | .statusQuery _ => true
  | _ => false

/-- A content-download request. -/
def Event.isDownload : Event → Bool
  | .download _ => true
  | _ => false

/-- A job-status notification: a message whose text starts with `Job 狀態: `. -/
def Event.isStatusNotice : Event → Bool
  | .sendMessage _ text => text.data.take 8 == "Job 狀態: ".data
  | _ => false

/-- A status query for another URL than the given one. -/
def Event.isOtherQuery (url : String) : Event → Bool
  | .statusQuery u => decide (u ≠ url)
  | _ => false

/-- The trace of a loop result. -/
def LoopResult.trace : LoopResult → List Event
  | .exit _ _ trace => trace
  | .fail _ trace => trace
  | .polling trace => trace

/-- The effects of the polling loop for a script of reported statuses, `recorded` being the
status recorded so far: each pass sleeps and issues a status query, and notifies the status
when it differs from the recorded one; the passes end with the first terminal status. -/
def loopEvents (s : SoraService) (chatID : Int) (jobID : String) :
    String → List String → List Event
  | _, [] => [Event.sleep 5, Event.statusQuery (statusURL s jobID)]
  | recorded, status :: rest =>
    [Event.sleep 5, Event.statusQuery (statusURL s jobID)] ++
      (if status = recorded then [] else [Event.sendMessage chatID ("Job 狀態: " ++ status)]) ++
      (if isTerminal status then [] else loopEvents s chatID jobID status rest)

/-! ## Concrete worlds used in examples -/

/-- A service with the default video parameters of `LoadConfig`. -/
def soraService : SoraService :=
  { endpoint := "https://bot.openai.azure.com/", deploymentName := "sora"
    apiVersion := "preview", apiKey := "key"
    defaultWidth := 1920, defaultHeight := 1080, defaultNSeconds := 10 }

/-- An HTTP response whose body is the JSON object with the given fields. -/
def jsonResponse (code : Int) (body : String) (fields : List (String × JSON)) :
    Except String HttpResponse :=
  .ok { StatusCode := code, Body := body, Json := .ok (.object fields) }

/-- The creation response `201 {"id":"job-1"}`. -/
def createdJob1 : Except String HttpResponse :=
  jsonResponse 201 "\x7b\"id\":\"job-1\"\x7d" [("id", .str "job-1")]

/-- A status response `200 {"status":...}` with no other field. -/
def statusOnly (status : String) : Except String HttpResponse :=
  jsonResponse 200 ("\x7b\"status\":\"" ++ status ++ "\"\x7d") [("status", .str status)]

/-- A status response `200 {"status":...,"generations":[{"id":...}]}`. -/
def statusWithGeneration (status generationID : String) : Except String HttpResponse :=
  jsonResponse 200
    ("\x7b\"status\":\"" ++ status ++ "\",\"generations\":[\x7b\"id\":\"" ++ generationID ++
      "\"\x7d]\x7d")
    [("status", .str status), ("generations", .array [.object [("id", .str generationID)]])]

/-- The status response `200 {}`: a JSON object without a `status` field. -/
def emptyObject : Except String HttpResponse := jsonResponse 200 "\x7b\x7d" []

/-- The download response `200` carrying the video bytes. -/
def videoBytes : Except String HttpResponse :=
  .ok { StatusCode := 200, Body := "<mp4>", Json := .error "invalid character \x27<\x27" }

/-- A world in which every request can be built and every file operation succeeds. -/
def scriptedWorld (create : Except String HttpResponse)
    (polls : List (Except String HttpResponse)) (download : Except String HttpResponse) :
    World :=
  { NewRequest := fun _ _ => .ok ()
    create := create, polls := polls, download := download
    now := 1700000000
    osCreate := fun _ => .ok ()
    ioCopy := .ok () }

/-- The scenario of the specification: `queued`, `running`, `running`, then `succeeded`
with generation `gen-1`. -/
def scenarioWorld : World :=
  scriptedWorld createdJob1
    [statusOnly "queued", statusOnly "running", statusOnly "running",
      statusWithGeneration "succeeded" "gen-1"]
    videoBytes

/-- A job that is reported `running`, then `failed`. -/
def failedWorld : World :=
  scriptedWorld createdJob1 [statusOnly "running", statusOnly "failed"] videoBytes

/-- A creation request answered with the given HTTP status and an empty body. -/
def rejectedWorld (code : Int) : World :=
  scriptedWorld (.ok { StatusCode := code, Body := "", Json := .error "unexpected end of JSON input" })
    [statusOnly "succeeded"] videoBytes

/-- A job whose `running` response lists a generation and whose `succeeded` response has no
`generations` field. -/
def staleWorld (generationID : String) : World :=
  scriptedWorld createdJob1
    [statusWithGeneration "running" generationID, statusOnly "succeeded"] videoBytes

/-- A job whose `queued` response lists generation `gen-0` and whose `succeeded` response
is `{"status":"succeeded"}`. -/
def bareSuccessWorld : World :=
  scriptedWorld createdJob1
    [statusWithGeneration "queued" "gen-0", statusOnly "succeeded"] videoBytes

/-- A job whose second status response is `{}`. -/
def missingStatusWorld : World :=
  scriptedWorld createdJob1
    [statusOnly "running", emptyObject, statusWithGeneration "succeeded" "gen-1"] videoBytes

/-- A job whose first status response is `{}`. -/
def missingStatusFirstWorld : World :=
  scriptedWorld createdJob1
    [emptyObject, statusWithGeneration "succeeded" "gen-1"] videoBytes

/-! ## Auxiliary lemmas -/

theorem foldl_countStep (enc : Tiktoken) (msgs : List Message) (a : Nat) :
    msgs.foldl (countStep enc) a = a + (msgs.map (tokensOf enc)).sum := by
  induction msgs generalizing a with
  | nil => simp
  | cons m ms ih =>
    simp only [List.foldl_cons, ih, List.map_cons, List.sum_cons, countStep, tokensOf]
    omega

theorem countWith_eq (enc : Tiktoken) (msgs : List Message) :
    countWith enc msgs = (msgs.map (tokensOf enc)).sum + 3 := by
  simp [countWith, foldl_countStep]

theorem countWith_append (enc : Tiktoken) (xs ys : List Message) :
    countWith enc (xs ++ ys) + 3 = countWith enc xs + countWith enc ys := by
  simp only [countWith_eq, List.map_append, List.sum_append]
  omega

theorem countWith_swap (enc : Tiktoken) (m : Message) (xs : List Message) :
    countWith enc ([m] ++ xs) = countWith enc (xs ++ [m]) := by
  have h1 := countWith_append enc [m] xs
  have h2 := countWith_append enc xs [m]
  omega

theorem CountTokens_uniform (tk : Tokenizer) (s : OpenAIService) (modelName : String) :
    (∃ e, ∀ msgs, s.CountTokens tk modelName msgs = .error e) ∨
    (∃ enc, ∀ msgs, s.CountTokens tk modelName msgs = .ok (countWith enc msgs)) := by
  unfold OpenAIService.CountTokens
  cases h : tk.GetEncoding (encodingNameFor modelName) with
  | ok enc => exact Or.inr ⟨enc, fun _ => rfl⟩
  | error e =>
    cases h2 : tk.GetEncoding "cl100k_base" with
    | ok enc => exact Or.inr ⟨enc, fun _ => rfl⟩
    | error e2 => exact Or.inl ⟨_, fun _ => rfl⟩

theorem foldl_collectStep (msgs : List Message) (acc : List Message × Nat) :
    msgs.foldl collectStep acc =
      (acc.1 ++ msgs.filter isSystem, acc.2 + (msgs.filter isSystem).length) := by
  induction msgs generalizing acc with
  | nil => simp
  | cons m ms ih =>
    rw [List.foldl_cons, ih]
    by_cases hm : m.Role = "system"
    · simp [collectStep, hm, isSystem, List.filter_cons]
      omega
    · simp [collectStep, hm, isSystem, List.filter_cons]

theorem collectSystem_eq (msgs : List Message) :
    collectSystem msgs = (msgs.filter isSystem, (msgs.filter isSystem).length) := by
  simp [collectSystem, foldl_collectStep]

theorem trimLoop_append (tk : Tokenizer) (s : OpenAIService) (modelName : String)
    (maxTokens : Int) (messages : List Message) (k : Nat) (j : Nat) (trimmed : List Message) :
    ∃ kept, trimLoop tk s modelName maxTokens messages k j trimmed = kept ++ trimmed := by
  induction j generalizing trimmed with
  | zero => exact ⟨[], rfl⟩
  | succ i ih =>
    unfold trimLoop
    split
    · exact ⟨[], rfl⟩
    · split
      · exact ⟨[], rfl⟩
      · rename_i mi _
        split
        · exact ⟨[], rfl⟩
        · split
          · exact ⟨[], rfl⟩
          · obtain ⟨kept, hk⟩ := ih ([mi] ++ trimmed)
            exact ⟨kept ++ [mi], by rw [hk]; simp⟩

theorem trimLoop_fits (tk : Tokenizer) (s : OpenAIService) (modelName : String)
    (maxTokens : Int) (messages : List Message) (k : Nat) (enc : Tiktoken)
    (hok : ∀ msgs, s.CountTokens tk modelName msgs = .ok (countWith enc msgs))
    (j : Nat) (trimmed : List Message) :
    trimLoop tk s modelName maxTokens messages k j trimmed = trimmed ∨
    (countWith enc (trimLoop tk s modelName maxTokens messages k j trimmed) : Int) ≤ maxTokens := by
  induction j generalizing trimmed with
  | zero => exact Or.inl rfl
  | succ i ih =>
    unfold trimLoop
    split
    · exact Or.inl rfl
    · split
      · exact Or.inl rfl
      · rename_i mi _
        rw [hok]
        dsimp only
        split
        · exact Or.inl rfl
        · rename_i hle
          right
          rcases ih ([mi] ++ trimmed) with h | h
          · rw [h, countWith_swap]; omega
          · exact h

theorem trimLoop_stop (tk : Tokenizer) (s : OpenAIService) (modelName : String)
    (maxTokens : Int) (messages : List Message) (k j : Nat) (hjk : j ≤ k)
    (trimmed : List Message) :
    trimLoop tk s modelName maxTokens messages k j trimmed = trimmed := by
  cases j with
  | zero => rfl
  | succ i =>
    unfold trimLoop
    rw [if_pos (by omega)]

theorem TrimMessages_of_fit (tk : Tokenizer) (s : OpenAIService) (modelName : String)
    (messages : List Message) (n : Nat)
    (hcount : s.CountTokens tk modelName messages = .ok n)
    (hfit : (n : Int) ≤ s.budget modelName) (hpos : 0 < s.budget modelName) :
    s.TrimMessages tk modelName messages = (messages, n) := by
  unfold OpenAIService.TrimMessages
  simp only [hcount]
  rw [if_neg (by omega), if_pos hfit]

theorem TrimMessages_of_over (tk : Tokenizer) (s : OpenAIService) (modelName : String)
    (messages : List Message) (enc : Tiktoken)
    (hok : ∀ msgs, s.CountTokens tk modelName msgs = .ok (countWith enc msgs))
    (hpos : 0 < s.budget modelName)
    (hover : s.budget modelName < (countWith enc messages : Int)) :
    s.TrimMessages tk modelName messages =
      (trimLoop tk s modelName (s.budget modelName) messages
          (messages.filter isSystem).length messages.length (messages.filter isSystem),
        countWith enc (trimLoop tk s modelName (s.budget modelName) messages
          (messages.filter isSystem).length messages.length (messages.filter isSystem))) := by
  unfold OpenAIService.TrimMessages
  simp only [hok, collectSystem_eq]
  rw [if_neg (by omega), if_neg (by omega)]

theorem TrimMessages_of_error (tk : Tokenizer) (s : OpenAIService) (modelName : String)
    (messages : List Message) (e : String)
    (herr : s.CountTokens tk modelName messages = .error e)
    (hpos : 0 < s.budget modelName) :
    s.TrimMessages tk modelName messages = (messages, 0) := by
  unfold OpenAIService.TrimMessages
  simp only [herr]
  rw [if_neg (by omega)]

theorem TrimMessages_of_nonpos (tk : Tokenizer) (s : OpenAIService) (modelName : String)
    (messages : List Message) (h : s.budget modelName ≤ 0) :
    s.TrimMessages tk modelName messages = ([], 0) := by
  unfold OpenAIService.TrimMessages
  simp only [h, if_true]

theorem three_le_countWith (enc : Tiktoken) (msgs : List Message) : 3 ≤ countWith enc msgs := by
  rw [countWith_eq]; omega

theorem encodingNameFor_eq (modelName : String) :
    encodingNameFor modelName = selectedScheme modelName := by
  unfold encodingNameFor selectedScheme
  by_cases h : modelName = "gpt-4o"
  · subst h; decide
  · simp [h]

theorem filter_isSystem_idem (msgs : List Message) :
    (msgs.filter isSystem).filter isSystem = msgs.filter isSystem := by
  simp [List.filter_filter]

/-- Without overflow the local `maxTokens` is the plain difference. -/
theorem budget_eq_sub (s : OpenAIService) (modelName : String)
    (hlo : -9223372036854775808 ≤ s.GetModelMaxTokens modelName - s.reservedTokens)
    (hhi : s.GetModelMaxTokens modelName - s.reservedTokens < 9223372036854775808) :
    s.budget modelName = s.GetModelMaxTokens modelName - s.reservedTokens := by
  unfold OpenAIService.budget wrapInt64
  omega

theorem trimLoop_keep (tk : Tokenizer) (s : OpenAIService) (modelName : String)
    (maxTokens : Int) (messages : List Message) (k : Nat) (enc : Tiktoken)
    (hok : ∀ msgs, s.CountTokens tk modelName msgs = .ok (countWith enc msgs))
    (i : Nat) (mi : Message) (trimmed : List Message)
    (hik : k ≤ i) (hget : messages[i]? = some mi)
    (hfit : (countWith enc (trimmed ++ [mi]) : Int) ≤ maxTokens) :
    trimLoop tk s modelName maxTokens messages k (i + 1) trimmed =
      trimLoop tk s modelName maxTokens messages k i ([mi] ++ trimmed) := by
  rw [trimLoop, if_neg (by omega)]
  simp only [hget, hok]
  rw [if_neg (by omega)]

theorem trimLoop_break (tk : Tokenizer) (s : OpenAIService) (modelName : String)
    (maxTokens : Int) (messages : List Message) (k : Nat) (enc : Tiktoken)
    (hok : ∀ msgs, s.CountTokens tk modelName msgs = .ok (countWith enc msgs))
    (i : Nat) (mi : Message) (trimmed : List Message)
    (hget : messages[i]? = some mi)
    (hover : maxTokens < (countWith enc (trimmed ++ [mi]) : Int)) :
    trimLoop tk s modelName maxTokens messages k (i + 1) trimmed = trimmed := by
  rw [trimLoop]
  split
  · rfl
  · simp only [hget, hok]
    rw [if_pos (by omega)]

/-- The scenario `[sys, u1, a1, u2, a2, u3]`: one leading system message, dropping the
two oldest turns is necessary and sufficient. The retained turns come back in front of
the system message. -/
theorem TrimMessages_six (tk : Tokenizer) (s : OpenAIService) (modelName : String)
    (enc : Tiktoken)
    (hok : ∀ msgs, s.CountTokens tk modelName msgs = .ok (countWith enc msgs))
    (m0 m1 m2 m3 m4 m5 : Message)
    (h0 : m0.Role = "system") (h1 : m1.Role ≠ "system") (h2 : m2.Role ≠ "system")
    (h3 : m3.Role ≠ "system") (h4 : m4.Role ≠ "system") (h5 : m5.Role ≠ "system")
    (hkeep : (countWith enc [m0, m3, m4, m5] : Int) ≤ s.budget modelName)
    (hdrop : s.budget modelName < (countWith enc [m0, m2, m3, m4, m5] : Int)) :
    s.TrimMessages tk modelName [m0, m1, m2, m3, m4, m5] =
      ([m3, m4, m5, m0], countWith enc [m0, m3, m4, m5]) := by
  have hf : [m0, m1, m2, m3, m4, m5].filter isSystem = [m0] := by
    simp [List.filter, isSystem, h0, h1, h2, h3, h4, h5]
  simp only [countWith_eq, List.map_cons, List.map_nil, List.sum_cons, List.sum_nil] at hkeep hdrop
  have hpos : 0 < s.budget modelName := by omega
  rw [TrimMessages_of_over tk s modelName _ enc hok hpos
    (by simp only [countWith_eq, List.map_cons, List.map_nil, List.sum_cons, List.sum_nil]
        omega), hf]
  have hlen : [m0, m1, m2, m3, m4, m5].length = 5 + 1 := rfl
  have h1len : [m0].length = 1 := rfl
  rw [hlen, h1len,
    trimLoop_keep tk s modelName _ _ _ enc hok 5 m5 [m0] (by omega) rfl
      (by simp only [countWith_eq, List.map_cons, List.map_nil, List.sum_cons, List.sum_nil,
            List.map_append, List.sum_append]
          omega),
    trimLoop_keep tk s modelName _ _ _ enc hok 4 m4 _ (by omega) rfl
      (by simp only [countWith_eq, List.map_cons, List.map_nil, List.sum_cons, List.sum_nil,
            List.map_append, List.sum_append]
          omega),
    trimLoop_keep tk s modelName _ _ _ enc hok 3 m3 _ (by omega) rfl
      (by simp only [countWith_eq, List.map_cons, List.map_nil, List.sum_cons, List.sum_nil,
            List.map_append, List.sum_append]
          omega),
    trimLoop_break tk s modelName _ _ _ enc hok 2 m2 _ rfl
      (by simp only [countWith_eq, List.map_cons, List.map_nil, List.sum_cons, List.sum_nil,
            List.map_append, List.sum_append]
          omega)]
  simp only [List.singleton_append, List.cons_append, List.nil_append, countWith_eq,
    List.map_cons, List.map_nil, List.sum_cons, List.sum_nil, Prod.mk.injEq, true_and]
  omega

theorem CountTokens_charTokenizer (s : OpenAIService) (modelName : String)
    (msgs : List Message) :
    s.CountTokens charTokenizer modelName msgs = .ok (countWith charEncoding msgs) := by
  unfold OpenAIService.CountTokens
  rw [encodingNameFor_eq]
  unfold selectedScheme
  split_ifs <;> rfl

theorem tokensOf_charEncoding (msg : Message) :
    tokensOf charEncoding msg = msg.Role.length + msg.Content.length := by
  unfold tokensOf charEncoding
  simp only [List.length_map]
  rfl

theorem countWith_char (msgs : List Message) :
    countWith charEncoding msgs =
      (msgs.map (fun m => m.Role.length + m.Content.length)).sum + 3 := by
  rw [countWith_eq]
  congr 2
  exact List.map_congr_left (fun m _ => tokensOf_charEncoding m)

theorem longText_length (n : Nat) : (longText n).length = n := by
  simp [longText, String.length]

theorem budget_default : (NewOpenAIService "" "").budget "gpt-35-turbo" = 3596 := by decide

/-! ## Budget and system messages (C1, C2) -/

/-- C1 (amended): whenever the system messages of the history alone fit the budget
(`CountTokens` of them is at most the value of `GetModelMaxTokens(model) - reservedTokens`),
`CountTokens` of the list returned by `TrimMessages` succeeds, is at most that budget, and
is the token count `TrimMessages` returns; this holds for every tokenizer backend. -/
theorem TrimMessages_within_budget (tk : Tokenizer) (s : OpenAIService) (modelName : String)
    (messages : List Message) (c : Nat)
    (hsys : s.CountTokens tk modelName (messages.filter isSystem) = .ok c)
    (hc : (c : Int) ≤ s.budget modelName) :
    ∃ n, s.CountTokens tk modelName (s.TrimMessages tk modelName messages).1 = .ok n ∧
      (n : Int) ≤ s.budget modelName ∧ (s.TrimMessages tk modelName messages).2 = n := by
  rcases CountTokens_uniform tk s modelName with ⟨e, herr⟩ | ⟨enc, hok⟩
  · rw [herr] at hsys; cases hsys
  · rw [hok] at hsys
    have hceq : countWith enc (messages.filter isSystem) = c := by injection hsys
    have h3 := three_le_countWith enc (messages.filter isSystem)
    have hpos : 0 < s.budget modelName := by omega
    by_cases hfit : (countWith enc messages : Int) ≤ s.budget modelName
    · rw [TrimMessages_of_fit tk s modelName messages _ (hok messages) hfit hpos]
      exact ⟨_, hok messages, hfit, rfl⟩
    · rw [TrimMessages_of_over tk s modelName messages enc hok hpos (by omega)]
      refine ⟨_, hok _, ?_, rfl⟩
      rcases trimLoop_fits tk s modelName (s.budget modelName) messages
        (messages.filter isSystem).length enc hok messages.length (messages.filter isSystem)
        with h | h
      · dsimp only; rw [h, hceq]; exact hc
      · exact h

/-- Witness of C1 (amended): the six-message history, budget 40, one token per character. -/
theorem TrimMessages_within_budget_witness :
    (smallService 40 0).CountTokens charTokenizer "m"
        ([sys, u1, a1, u2, a2, u3].filter isSystem) = .ok 10 ∧
    ((10 : Nat) : Int) ≤ (smallService 40 0).budget "m" ∧
    ∃ n, (smallService 40 0).CountTokens charTokenizer "m"
        ((smallService 40 0).TrimMessages charTokenizer "m" [sys, u1, a1, u2, a2, u3]).1 = .ok n ∧
      (n : Int) ≤ (smallService 40 0).budget "m" ∧
      ((smallService 40 0).TrimMessages charTokenizer "m" [sys, u1, a1, u2, a2, u3]).2 = n :=
  ⟨rfl, by decide,
    TrimMessages_within_budget charTokenizer (smallService 40 0) "m" [sys, u1, a1, u2, a2, u3] 10
      rfl (by decide)⟩

/-- Counterexample to C1 as stated. With limit 5 and nothing reserved the history
`[sys, u3]` is trimmed to `[sys]`, whose count is 10 > 5; with limit 5 and 5 reserved the
budget is 0 and the returned empty list has count 3 > 0. -/
theorem TrimMessages_exceeds_budget :
    ((smallService 5 0).TrimMessages charTokenizer "m" [sys, u3] = ([sys], 10) ∧
      (smallService 5 0).CountTokens charTokenizer "m" [sys] = .ok 10 ∧
      (smallService 5 0).GetModelMaxTokens "m" - (smallService 5 0).reservedTokens = 5 ∧
      ¬ ((10 : Nat) : Int) ≤ (smallService 5 0).budget "m") ∧
    ((smallService 5 5).TrimMessages charTokenizer "m" [u3] = ([], 0) ∧
      (smallService 5 5).CountTokens charTokenizer "m" [] = .ok 3 ∧
      (smallService 5 5).GetModelMaxTokens "m" - (smallService 5 5).reservedTokens = 0 ∧
      ¬ ((3 : Nat) : Int) ≤ (smallService 5 5).budget "m") :=
  ⟨⟨rfl, rfl, rfl, by decide⟩, ⟨rfl, rfl, rfl, by decide⟩⟩

/-- C2 (amended): when the budget `GetModelMaxTokens(model) - reservedTokens` is positive,
the system messages of the history, in their order, form a subsequence of the list
returned by `TrimMessages`; in particular every system message of the history is in it. -/
theorem TrimMessages_keeps_system (tk : Tokenizer) (s : OpenAIService) (modelName : String)
    (messages : List Message) (hpos : 0 < s.budget modelName) :
    List.Sublist (messages.filter isSystem) (s.TrimMessages tk modelName messages).1 ∧
    ∀ m ∈ messages, m.Role = "system" → m ∈ (s.TrimMessages tk modelName messages).1 := by
  have key : List.Sublist (messages.filter isSystem) (s.TrimMessages tk modelName messages).1 := by
    rcases CountTokens_uniform tk s modelName with ⟨e, herr⟩ | ⟨enc, hok⟩
    · rw [TrimMessages_of_error tk s modelName messages e (herr messages) hpos]
      exact List.filter_sublist messages
    · by_cases hfit : (countWith enc messages : Int) ≤ s.budget modelName
      · rw [TrimMessages_of_fit tk s modelName messages _ (hok messages) hfit hpos]
        exact List.filter_sublist messages
      · rw [TrimMessages_of_over tk s modelName messages enc hok hpos (by omega)]
        obtain ⟨kept, hk⟩ := trimLoop_append tk s modelName (s.budget modelName) messages
          (messages.filter isSystem).length messages.length (messages.filter isSystem)
        dsimp only
        rw [hk]
        exact List.sublist_append_right kept _
  refine ⟨key, fun m hm hrole => key.subset ?_⟩
  exact List.mem_filter.mpr ⟨hm, by simp [isSystem, hrole]⟩

/-- Witness of C2 (amended): the six-message history with budget 40. -/
theorem TrimMessages_keeps_system_witness :
    0 < (smallService 40 0).budget "m" ∧
    List.Sublist ([sys, u1, a1, u2, a2, u3].filter isSystem)
      ((smallService 40 0).TrimMessages charTokenizer "m" [sys, u1, a1, u2, a2, u3]).1 ∧
    ∀ m ∈ [sys, u1, a1, u2, a2, u3], m.Role = "system" →
      m ∈ ((smallService 40 0).TrimMessages charTokenizer "m" [sys, u1, a1, u2, a2, u3]).1 :=
  ⟨by decide,
    TrimMessages_keeps_system charTokenizer (smallService 40 0) "m" [sys, u1, a1, u2, a2, u3]
      (by decide)⟩

/-- Counterexample to C2 as stated: with 5 tokens reserved out of a limit of 5 the budget
is 0 and the system message of `[sys, u3]` is not in the returned (empty) list. -/
theorem TrimMessages_drops_system :
    (smallService 5 5).GetModelMaxTokens "m" - (smallService 5 5).reservedTokens = 0 ∧
    (smallService 5 5).TrimMessages charTokenizer "m" [sys, u3] = ([], 0) ∧
    sys.Role = "system" ∧ sys ∈ [sys, u3] ∧
    sys ∉ ((smallService 5 5).TrimMessages charTokenizer "m" [sys, u3]).1 := by
  decide

/-! ## Order of the result (C3, C5) -/

/-- C3 (evaluation at the failing input): in the shipped configuration, model
`gpt-35-turbo` (budget 4096 - 500), the history `[brief, essay, hi]` of a system message,
a 4000-character user message and a short user message is trimmed to `[hi, brief]`,
which is not a subsequence of the history. -/
theorem TrimMessages_not_subsequence :
    (NewOpenAIService "" "").TrimMessages charTokenizer "gpt-35-turbo" [brief, essay, hi]
      = ([hi, brief], 23) ∧
    ¬ List.Sublist [hi, brief] [brief, essay, hi] := by
  have hover : (NewOpenAIService "" "").budget "gpt-35-turbo" <
      (countWith charEncoding [brief, essay, hi] : Int) := by
    rw [budget_default, countWith_char]
    simp only [List.map_cons, List.map_nil, List.sum_cons, List.sum_nil,
      brief, essay, hi, longText_length]
    decide
  have hf : [brief, essay, hi].filter isSystem = [brief] := rfl
  have hlen : [brief, essay, hi].length = 2 + 1 := rfl
  have h1 : [brief].length = 1 := rfl
  constructor
  · rw [TrimMessages_of_over _ _ _ _ charEncoding (CountTokens_charTokenizer _ _)
      (by rw [budget_default]; decide) hover, hf, hlen, h1, budget_default,
      trimLoop_keep _ _ _ _ _ _ charEncoding (CountTokens_charTokenizer _ _) 2 hi [brief]
        (by decide) rfl (by decide),
      trimLoop_break _ _ _ _ _ _ charEncoding (CountTokens_charTokenizer _ _) 1 essay
        ([hi] ++ [brief]) rfl (by
          rw [countWith_char]
          simp only [List.map_cons, List.map_nil, List.sum_cons, List.sum_nil, List.map_append,
            List.sum_append, brief, essay, hi, longText_length]
          decide)]
    rfl
  · decide

/-- C5 (evaluation at the failing input): in the shipped configuration, model
`gpt-35-turbo`, the history `[brief, q1, r1, q2, r2, q3]` is over budget, dropping
`q1, r1` brings it under budget and dropping `q1` alone does not; `TrimMessages` returns
`[q2, r2, q3, brief]`, the retained turns followed by the system message, and not
`[brief, q2, r2, q3]`. -/
theorem TrimMessages_system_last :
    (NewOpenAIService "" "").budget "gpt-35-turbo" = 3596 ∧
    (NewOpenAIService "" "").CountTokens charTokenizer "gpt-35-turbo"
      [brief, q2, r2, q3] = .ok 3034 ∧
    (NewOpenAIService "" "").CountTokens charTokenizer "gpt-35-turbo"
      [brief, r1, q2, r2, q3] = .ok 5043 ∧
    (NewOpenAIService "" "").TrimMessages charTokenizer "gpt-35-turbo"
      [brief, q1, r1, q2, r2, q3] = ([q2, r2, q3, brief], 3034) ∧
    [q2, r2, q3, brief] ≠ [brief, q2, r2, q3] := by
  have c1 : countWith charEncoding [brief, q2, r2, q3] = 3034 := by
    rw [countWith_char]
    simp only [List.map_cons, List.map_nil, List.sum_cons, List.sum_nil,
      brief, q2, r2, q3, longText_length]
    decide
  have c2 : countWith charEncoding [brief, r1, q2, r2, q3] = 5043 := by
    rw [countWith_char]
    simp only [List.map_cons, List.map_nil, List.sum_cons, List.sum_nil,
      brief, r1, q2, r2, q3, longText_length]
    decide
  refine ⟨budget_default, ?_, ?_, ?_, by decide⟩
  · rw [CountTokens_charTokenizer, c1]
  · rw [CountTokens_charTokenizer, c2]
  · rw [TrimMessages_six charTokenizer _ _ charEncoding (CountTokens_charTokenizer _ _)
      brief q1 r1 q2 r2 q3 rfl (by decide) (by decide) (by decide) (by decide) (by decide)
      (by rw [budget_default, c1]; decide) (by rw [budget_default, c2]; decide), c1]

/-! ## No-op, idempotence and the empty budget (C4, C6, C7) -/

/-- C4: if `CountTokens(model, H)` succeeds with a count that is at most the budget
`GetModelMaxTokens(model) - reservedTokens`, then `TrimMessages` returns exactly `H`
together with that count. -/
theorem TrimMessages_noop_when_fits (tk : Tokenizer) (s : OpenAIService) (modelName : String)
    (messages : List Message) (n : Nat)
    (hcount : s.CountTokens tk modelName messages = .ok n)
    (hfit : (n : Int) ≤ s.budget modelName) :
    s.TrimMessages tk modelName messages = (messages, n) := by
  have hpos : 0 < s.budget modelName := by
    rcases CountTokens_uniform tk s modelName with ⟨e, herr⟩ | ⟨enc, hok⟩
    · rw [herr] at hcount; cases hcount
    · rw [hok] at hcount
      have hn : countWith enc messages = n := by injection hcount
      have h3 := three_le_countWith enc messages
      omega
  exact TrimMessages_of_fit tk s modelName messages n hcount hfit hpos

/-- Witness of C4: the six-message history (54 tokens) under a budget of 100. -/
theorem TrimMessages_noop_when_fits_witness :
    (smallService 100 0).CountTokens charTokenizer "m" [sys, u1, a1, u2, a2, u3] = .ok 54 ∧
    ((54 : Nat) : Int) ≤ (smallService 100 0).budget "m" ∧
    (smallService 100 0).TrimMessages charTokenizer "m" [sys, u1, a1, u2, a2, u3]
      = ([sys, u1, a1, u2, a2, u3], 54) :=
  ⟨rfl, by decide,
    TrimMessages_noop_when_fits charTokenizer (smallService 100 0) "m"
      [sys, u1, a1, u2, a2, u3] 54 rfl (by decide)⟩

/-- C6: `TrimMessages` is idempotent: applied to the list it returned, it returns the
same list and the same token count, for every tokenizer backend, service, model name
and history. -/
theorem TrimMessages_idempotent (tk : Tokenizer) (s : OpenAIService) (modelName : String)
    (messages : List Message) :
    s.TrimMessages tk modelName (s.TrimMessages tk modelName messages).1
      = s.TrimMessages tk modelName messages := by
  by_cases hb : s.budget modelName ≤ 0
  · rw [TrimMessages_of_nonpos tk s modelName messages hb]
    exact TrimMessages_of_nonpos tk s modelName [] hb
  · have hpos : 0 < s.budget modelName := by omega
    rcases CountTokens_uniform tk s modelName with ⟨e, herr⟩ | ⟨enc, hok⟩
    · rw [TrimMessages_of_error tk s modelName messages e (herr _) hpos]
      exact TrimMessages_of_error tk s modelName messages e (herr _) hpos
    · by_cases hfit : (countWith enc messages : Int) ≤ s.budget modelName
      · rw [TrimMessages_of_fit tk s modelName messages _ (hok messages) hfit hpos]
        exact TrimMessages_of_fit tk s modelName messages _ (hok messages) hfit hpos
      · rw [TrimMessages_of_over tk s modelName messages enc hok hpos (by omega)]
        dsimp only
        generalize hR : trimLoop tk s modelName (s.budget modelName) messages
          (messages.filter isSystem).length messages.length (messages.filter isSystem) = R
        by_cases hfitR : (countWith enc R : Int) ≤ s.budget modelName
        · exact TrimMessages_of_fit tk s modelName R _ (hok R) hfitR hpos
        · have hReq : R = messages.filter isSystem := by
            rcases trimLoop_fits tk s modelName (s.budget modelName) messages
              (messages.filter isSystem).length enc hok messages.length
              (messages.filter isSystem) with h | h
            · rw [← hR]; exact h
            · rw [hR] at h; exact absurd h hfitR
          have hff : R.filter isSystem = R := by
            rw [hReq]; exact filter_isSystem_idem messages
          rw [TrimMessages_of_over tk s modelName R enc hok hpos (by omega), hff,
            trimLoop_stop tk s modelName (s.budget modelName) R R.length R.length
              (Nat.le_refl _) R]

/-- C7: if the budget `GetModelMaxTokens(model) - reservedTokens` is not positive,
`TrimMessages` returns the empty list and the token count 0 (its result carries no
error component). -/
theorem TrimMessages_empty_without_budget (tk : Tokenizer) (s : OpenAIService)
    (modelName : String) (messages : List Message) (h : s.budget modelName ≤ 0) :
    s.TrimMessages tk modelName messages = ([], 0) :=
  TrimMessages_of_nonpos tk s modelName messages h

/-- Witness of C7: 600 tokens reserved out of a limit of 500, tokenizer unavailable. -/
theorem TrimMessages_empty_without_budget_witness :
    (smallService 500 600).GetModelMaxTokens "m" - (smallService 500 600).reservedTokens
      = -100 ∧
    (smallService 500 600).budget "m" ≤ 0 ∧
    (smallService 500 600).TrimMessages offlineTokenizer "m" [sys, u1, a1] = ([], 0) :=
  ⟨rfl, by decide,
    TrimMessages_empty_without_budget offlineTokenizer (smallService 500 600) "m" [sys, u1, a1]
      (by decide)⟩

/-! ## Limits and counting (C8, C9, C10) -/

/-- C8: `GetModelMaxTokens` returns the configured limit for every model name present
in the model-limit table and exactly 4096 for every model name absent from it. -/
theorem GetModelMaxTokens_table_or_default (s : OpenAIService) (modelName : String) :
    (∀ limit, s.modelTokenLimits modelName = some limit →
      s.GetModelMaxTokens modelName = limit) ∧
    (s.modelTokenLimits modelName = none → s.GetModelMaxTokens modelName = 4096) := by
  unfold OpenAIService.GetModelMaxTokens
  constructor
  · intro limit h
    rw [h]
  · intro h
    rw [h]

/-- Witness of C8: in the shipped table `gpt-4-32k` is present with limit 32768 and
`gpt-5` is absent. -/
theorem GetModelMaxTokens_table_or_default_witness :
    ((NewOpenAIService "" "").modelTokenLimits "gpt-4-32k" = some 32768 ∧
      (NewOpenAIService "" "").GetModelMaxTokens "gpt-4-32k" = 32768) ∧
    ((NewOpenAIService "" "").modelTokenLimits "gpt-5" = none ∧
      (NewOpenAIService "" "").GetModelMaxTokens "gpt-5" = 4096) :=
  ⟨⟨rfl, (GetModelMaxTokens_table_or_default (NewOpenAIService "" "") "gpt-4-32k").1
      32768 rfl⟩,
    ⟨rfl, (GetModelMaxTokens_table_or_default (NewOpenAIService "" "") "gpt-5").2 rfl⟩⟩

/-- C9 (amended): when the scheme selected for the model (`o200k_base` for `gpt-4o`,
`cl100k_base` for every other name) is available with encoding `enc`, `CountTokens`
returns 3 plus the sum over the messages of the tokens of the role string plus the tokens
of the content string under `enc`, and 3 for the empty list; when the selected scheme is
unavailable and `cl100k_base` is available, the sum is taken under the encoding of
`cl100k_base` instead; when neither is available, `CountTokens` returns an error and no
count, for the empty list too. -/
theorem CountTokens_sum_formula (tk : Tokenizer) (s : OpenAIService) (modelName : String)
    (messages : List Message) :
    (∀ enc, tk.GetEncoding (selectedScheme modelName) = .ok enc →
      s.CountTokens tk modelName messages =
        .ok (3 + (messages.map (fun m =>
          (enc.Encode m.Role).length + (enc.Encode m.Content).length)).sum) ∧
      s.CountTokens tk modelName [] = .ok 3) ∧
    (∀ e enc, tk.GetEncoding (selectedScheme modelName) = .error e →
      tk.GetEncoding "cl100k_base" = .ok enc →
      s.CountTokens tk modelName messages =
        .ok (3 + (messages.map (fun m =>
          (enc.Encode m.Role).length + (enc.Encode m.Content).length)).sum) ∧
      s.CountTokens tk modelName [] = .ok 3) ∧
    (∀ e e1, tk.GetEncoding (selectedScheme modelName) = .error e →
      tk.GetEncoding "cl100k_base" = .error e1 →
      s.CountTokens tk modelName messages = .error ("無法獲取 cl100k_base 編碼: " ++ e1) ∧
      s.CountTokens tk modelName [] = .error ("無法獲取 cl100k_base 編碼: " ++ e1)) := by
  have hsum : ∀ (enc : Tiktoken) (msgs : List Message), countWith enc msgs =
      3 + (msgs.map (fun m =>
        (enc.Encode m.Role).length + (enc.Encode m.Content).length)).sum := by
    intro enc msgs
    rw [countWith_eq, Nat.add_comm]
    rfl
  refine ⟨?_, ?_, ?_⟩
  · intro enc havail
    have h : ∀ msgs, s.CountTokens tk modelName msgs = .ok (countWith enc msgs) := by
      intro msgs
      unfold OpenAIService.CountTokens
      rw [encodingNameFor_eq, havail]
    constructor
    · rw [h, hsum]
    · rw [h]
      rfl
  · intro e enc hsel hdef
    have h : ∀ msgs, s.CountTokens tk modelName msgs = .ok (countWith enc msgs) := by
      intro msgs
      unfold OpenAIService.CountTokens
      rw [encodingNameFor_eq, hsel]
      simp only [hdef]
    constructor
    · rw [h, hsum]
    · rw [h]
      rfl
  · intro e e1 hsel hdef
    have h : ∀ msgs, s.CountTokens tk modelName msgs
        = .error ("無法獲取 cl100k_base 編碼: " ++ e1) := by
      intro msgs
      unfold OpenAIService.CountTokens
      rw [encodingNameFor_eq, hsel]
      simp only [hdef]
    exact ⟨h _, h _⟩

/-- Witness of C9 (amended). With `o200k_base` (two tokens per character) and
`cl100k_base` (one token per character) both available, `[sys, u1]` counts 33 for
`gpt-4o` and 18 for `gpt-4`; with only `cl100k_base` available it counts 18 for `gpt-4o`;
with no encoding available `CountTokens` fails. -/
theorem CountTokens_sum_formula_witness :
    (twoSchemeTokenizer.GetEncoding (selectedScheme "gpt-4o") = .ok pairEncoding ∧
      (NewOpenAIService "" "").CountTokens twoSchemeTokenizer "gpt-4o" [sys, u1] = .ok 33 ∧
      (NewOpenAIService "" "").CountTokens twoSchemeTokenizer "gpt-4o" [] = .ok 3) ∧
    (twoSchemeTokenizer.GetEncoding (selectedScheme "gpt-4") = .ok charEncoding ∧
      (NewOpenAIService "" "").CountTokens twoSchemeTokenizer "gpt-4" [sys, u1] = .ok 18 ∧
      (NewOpenAIService "" "").CountTokens twoSchemeTokenizer "gpt-4" [] = .ok 3) ∧
    (fallbackTokenizer.GetEncoding (selectedScheme "gpt-4o")
        = .error "cannot load o200k_base" ∧
      fallbackTokenizer.GetEncoding "cl100k_base" = .ok charEncoding ∧
      (NewOpenAIService "" "").CountTokens fallbackTokenizer "gpt-4o" [sys, u1] = .ok 18 ∧
      (NewOpenAIService "" "").CountTokens fallbackTokenizer "gpt-4o" [] = .ok 3) ∧
    ((NewOpenAIService "" "").CountTokens offlineTokenizer "gpt-4o" [sys, u1]
        = .error "無法獲取 cl100k_base 編碼: cannot load cl100k_base" ∧
      (NewOpenAIService "" "").CountTokens offlineTokenizer "gpt-4o" []
        = .error "無法獲取 cl100k_base 編碼: cannot load cl100k_base") :=
  ⟨⟨rfl, (CountTokens_sum_formula twoSchemeTokenizer (NewOpenAIService "" "") "gpt-4o"
      [sys, u1]).1 pairEncoding rfl⟩,
    ⟨rfl, (CountTokens_sum_formula twoSchemeTokenizer (NewOpenAIService "" "") "gpt-4"
      [sys, u1]).1 charEncoding rfl⟩,
    ⟨rfl, rfl, (CountTokens_sum_formula fallbackTokenizer (NewOpenAIService "" "") "gpt-4o"
      [sys, u1]).2.1 "cannot load o200k_base" charEncoding rfl rfl⟩,
    (CountTokens_sum_formula offlineTokenizer (NewOpenAIService "" "") "gpt-4o"
      [sys, u1]).2.2 "cannot load o200k_base" "cannot load cl100k_base" rfl rfl⟩

/-- Counterexample to C9 as stated. With no encoding available, `CountTokens` of the empty
list is an error, not 3. With only `cl100k_base` available, the count of `[sys, u1]` for
`gpt-4o` is 18, the sum under `cl100k_base`: it is the count for `gpt-4`, and not the 33
that the sum under `o200k_base` gives where that scheme is available. -/
theorem CountTokens_not_under_selected_scheme :
    ((NewOpenAIService "" "").CountTokens offlineTokenizer "gpt-4" []
        = .error "無法獲取 cl100k_base 編碼: cannot load cl100k_base" ∧
      (NewOpenAIService "" "").CountTokens offlineTokenizer "gpt-4" [] ≠ .ok 3) ∧
    (selectedScheme "gpt-4o" = "o200k_base" ∧
      fallbackTokenizer.GetEncoding "o200k_base" = .error "cannot load o200k_base" ∧
      fallbackTokenizer.GetEncoding "cl100k_base" = twoSchemeTokenizer.GetEncoding "cl100k_base" ∧
      (NewOpenAIService "" "").CountTokens fallbackTokenizer "gpt-4o" [sys, u1] = .ok 18 ∧
      (NewOpenAIService "" "").CountTokens twoSchemeTokenizer "gpt-4" [sys, u1] = .ok 18 ∧
      (NewOpenAIService "" "").CountTokens twoSchemeTokenizer "gpt-4o" [sys, u1] = .ok 33) :=
  ⟨⟨rfl, fun h => by cases h⟩, rfl, rfl, rfl, rfl, rfl, rfl⟩

/-- C10 (amended): whenever the default scheme `cl100k_base` is available, `CountTokens`
returns a count and no error, and if the scheme selected for the model is unavailable
that count is the one computed with the default scheme. `CountTokens` fails only when
`cl100k_base` is unavailable, and `TrimMessages` then still returns a plain result: the
empty list with 0 when the budget is not positive, otherwise the history unchanged with
token count 0. -/
theorem CountTokens_fails_only_without_default (tk : Tokenizer) (s : OpenAIService)
    (modelName : String) (messages : List Message) :
    (∀ enc, tk.GetEncoding "cl100k_base" = .ok enc →
      (∃ n, s.CountTokens tk modelName messages = .ok n) ∧
      (∀ e, tk.GetEncoding (selectedScheme modelName) = .error e →
        s.CountTokens tk modelName messages = .ok (countWith enc messages))) ∧
    (∀ e, s.CountTokens tk modelName messages = .error e →
      (∃ e1, tk.GetEncoding "cl100k_base" = .error e1) ∧
      s.TrimMessages tk modelName messages =
        if s.budget modelName ≤ 0 then ([], 0) else (messages, 0)) := by
  constructor
  · intro enc hdef
    constructor
    · unfold OpenAIService.CountTokens
      cases hsel : tk.GetEncoding (encodingNameFor modelName) with
      | ok enc1 => exact ⟨_, rfl⟩
      | error e => exact ⟨countWith enc messages, by simp only [hdef]⟩
    · intro e hsel
      unfold OpenAIService.CountTokens
      rw [encodingNameFor_eq, hsel]
      simp only [hdef]
  · intro e herr
    constructor
    · unfold OpenAIService.CountTokens at herr
      cases hsel : tk.GetEncoding (encodingNameFor modelName) with
      | ok enc1 => rw [hsel] at herr; cases herr
      | error e0 =>
        cases hdef : tk.GetEncoding "cl100k_base" with
        | ok enc => rw [hsel] at herr; simp only [hdef] at herr; cases herr
        | error e1 => exact ⟨e1, rfl⟩
    · by_cases hb : s.budget modelName ≤ 0
      · rw [if_pos hb]
        exact TrimMessages_of_nonpos tk s modelName messages hb
      · rw [if_neg hb]
        exact TrimMessages_of_error tk s modelName messages e herr (by omega)

/-- Witness of C10 (amended): with only `cl100k_base` available the count for `gpt-4o`
is the default scheme's; with no encoding available `CountTokens` fails and
`TrimMessages` returns the history with count 0. -/
theorem CountTokens_fails_only_without_default_witness :
    (fallbackTokenizer.GetEncoding "cl100k_base" = .ok charEncoding ∧
      fallbackTokenizer.GetEncoding (selectedScheme "gpt-4o")
        = .error "cannot load o200k_base" ∧
      (NewOpenAIService "" "").CountTokens fallbackTokenizer "gpt-4o" [sys, u1]
        = .ok (countWith charEncoding [sys, u1])) ∧
    ((NewOpenAIService "" "").CountTokens offlineTokenizer "gpt-4o" [sys, u1]
        = .error "無法獲取 cl100k_base 編碼: cannot load cl100k_base" ∧
      (NewOpenAIService "" "").TrimMessages offlineTokenizer "gpt-4o" [sys, u1]
        = ([sys, u1], 0)) :=
  ⟨⟨rfl, rfl,
      ((CountTokens_fails_only_without_default fallbackTokenizer (NewOpenAIService "" "")
        "gpt-4o" [sys, u1]).1 charEncoding rfl).2 "cannot load o200k_base" rfl⟩,
    ⟨rfl,
      ((CountTokens_fails_only_without_default offlineTokenizer (NewOpenAIService "" "")
        "gpt-4o" [sys, u1]).2 "無法獲取 cl100k_base 編碼: cannot load cl100k_base" rfl).2⟩⟩

/-- Counterexample to C10 as stated: when no encoding can be obtained, `CountTokens`
returns an error and no count. -/
theorem CountTokens_fails_offline :
    offlineTokenizer.GetEncoding (selectedScheme "gpt-4o") = .error "cannot load o200k_base" ∧
    offlineTokenizer.GetEncoding "cl100k_base" = .error "cannot load cl100k_base" ∧
    (NewOpenAIService "" "").CountTokens offlineTokenizer "gpt-4o" [hi]
      = .error "無法獲取 cl100k_base 編碼: cannot load cl100k_base" ∧
    ¬ ∃ n, (NewOpenAIService "" "").CountTokens offlineTokenizer "gpt-4o" [hi] = .ok n :=
  ⟨rfl, rfl, rfl, fun ⟨_, h⟩ => by cases h⟩

/-! ## Lemmas on the polling loop -/

theorem pollLoop_exit (w : World) (s : SoraService) (chatID : Int) (jobID : String)
    (polls : List (Except String HttpResponse)) (cur : String) (m : GoMap) (tr : List Event)
    (hterm : isTerminal cur = true) :
    pollLoop w s chatID jobID polls cur m tr = .exit cur m tr := by
  have h : cur = "succeeded" ∨ cur = "failed" ∨ cur = "cancelled" := by
    simpa [isTerminal] using hterm
  cases polls with
  | nil => rw [pollLoop, if_pos h]
  | cons a rest =>
    cases a with
    | ok resp => rw [pollLoop, if_pos h]
    | error e => rw [pollLoop, if_pos h]

theorem pollLoop_nil (w : World) (s : SoraService) (chatID : Int) (jobID : String)
    (cur : String) (m : GoMap) (tr : List Event)
    (hterm : isTerminal cur = false)
    (hreq : w.NewRequest "GET" (statusURL s jobID) = .ok ()) :
    pollLoop w s chatID jobID [] cur m tr =
      .polling (tr ++ [Event.sleep 5, Event.statusQuery (statusURL s jobID)]) := by
  have h : ¬ (cur = "succeeded" ∨ cur = "failed" ∨ cur = "cancelled") := by
    simpa [isTerminal] using hterm
  rw [pollLoop, if_neg h]
  simp only [hreq]

theorem get_append_of_lookup (fields old : GoMap) (key : String) (v : JSON)
    (h : fields.lookup key = some v) : GoMap.get (fields ++ old) key = v := by
  unfold GoMap.get
  rw [List.lookup_append, h]
  rfl

theorem stringField_some (json : Except String JSON) (key st : String)
    (h : stringField json key = some st) :
    ∃ fields, json = .ok (.object fields) ∧ fields.reverse.lookup key = some (.str st) := by
  unfold stringField at h
  split at h
  · rename_i fields
    refine ⟨fields, rfl, ?_⟩
    unfold GoMap.get at h
    split at h
    · rename_i v hv
      cases v <;> simp [JSON.asString] at h
      rw [hv, h]
    · simp [JSON.asString] at h
  · cases h

theorem pollLoop_step (w : World) (s : SoraService) (chatID : Int) (jobID : String)
    (answer : Except String HttpResponse) (rest : List (Except String HttpResponse))
    (cur st : String) (m : GoMap) (tr : List Event)
    (hterm : isTerminal cur = false)
    (hreq : w.NewRequest "GET" (statusURL s jobID) = .ok ())
    (hrep : reportedStatus answer = some st) :
    ∃ m1, pollLoop w s chatID jobID (answer :: rest) cur m tr =
      pollLoop w s chatID jobID rest st m1
        (tr ++ [Event.sleep 5, Event.statusQuery (statusURL s jobID)] ++
          (if st = cur then [] else [Event.sendMessage chatID ("Job 狀態: " ++ st)])) := by
  have h : ¬ (cur = "succeeded" ∨ cur = "failed" ∨ cur = "cancelled") := by
    simpa [isTerminal] using hterm
  cases answer with
  | error e => simp [reportedStatus] at hrep
  | ok resp =>
    unfold reportedStatus at hrep
    by_cases h200 : resp.StatusCode = 200
    · simp only [h200, if_true] at hrep
      obtain ⟨fields, hjson, hlook⟩ := stringField_some _ _ _ hrep
      refine ⟨fields.reverse ++ m, ?_⟩
      rw [pollLoop, if_neg h]
      simp only [hreq, h200, ne_eq, not_true_eq_false, if_false, hjson, unmarshalInto,
        get_append_of_lookup _ _ _ _ hlook, JSON.asString]
      by_cases hst : st = cur
      · subst hst
        simp
      · have hne : ¬ cur = st := fun hh => hst hh.symm
        simp [hst, hne]
    · simp [h200] at hrep

theorem pollLoop_script (w : World) (s : SoraService) (chatID : Int) (jobID : String)
    (hreq : w.NewRequest "GET" (statusURL s jobID) = .ok ())
    (polls : List (Except String HttpResponse)) (sts : List String)
    (hrep : polls.map reportedStatus = sts.map some)
    (cur : String) (m : GoMap) (tr : List Event) (hcur : isTerminal cur = false) :
    (pollLoop w s chatID jobID polls cur m tr).trace = tr ++ loopEvents s chatID jobID cur sts ∧
    ((∃ st ∈ sts, isTerminal st = true) →
      ∃ c m1 t, pollLoop w s chatID jobID polls cur m tr = .exit c m1 t) ∧
    ((∀ st ∈ sts, isTerminal st = false) →
      ∃ t, pollLoop w s chatID jobID polls cur m tr = .polling t) := by
  induction polls generalizing sts cur m tr with
  | nil =>
    cases sts with
    | cons st rest => simp at hrep
    | nil =>
      rw [pollLoop_nil w s chatID jobID cur m tr hcur hreq]
      refine ⟨rfl, fun h => ?_, fun _ => ⟨_, rfl⟩⟩
      simp at h
  | cons a rest ih =>
    cases sts with
    | nil => simp at hrep
    | cons st sts1 =>
      simp only [List.map_cons, List.cons.injEq] at hrep
      obtain ⟨ha, hrest⟩ := hrep
      obtain ⟨m1, hstep⟩ := pollLoop_step w s chatID jobID a rest cur st m tr hcur hreq ha
      rw [hstep]
      by_cases hterm : isTerminal st = true
      · rw [pollLoop_exit w s chatID jobID rest st m1 _ hterm]
        refine ⟨?_, fun _ => ⟨_, _, _, rfl⟩, fun hall => ?_⟩
        · simp [LoopResult.trace, loopEvents, hterm, List.append_assoc]
        · have := hall st (List.mem_cons_self _ _)
          rw [hterm] at this
          cases this
      · have hterm1 : isTerminal st = false := by simpa using hterm
        obtain ⟨h1, h2, h3⟩ := ih sts1 hrest st m1
          (tr ++ [Event.sleep 5, Event.statusQuery (statusURL s jobID)] ++
            (if st = cur then [] else [Event.sendMessage chatID ("Job 狀態: " ++ st)])) hterm1
        refine ⟨?_, fun ⟨x, hx, hxt⟩ => h2 ?_, fun hall => h3 ?_⟩
        · rw [h1]
          simp [loopEvents, hterm1, List.append_assoc]
        · rcases List.mem_cons.mp hx with rfl | hx1
          · rw [hterm1] at hxt; cases hxt
          · exact ⟨x, hx1, hxt⟩
        · exact fun x hx => hall x (List.mem_cons_of_mem _ hx)

theorem statusQueries_loopEvents (s : SoraService) (chatID : Int) (jobID : String)
    (recorded : String) (sts : List String) :
    ((loopEvents s chatID jobID recorded sts).filter Event.isStatusQuery).length
      = queriesExpected sts := by
  induction sts generalizing recorded with
  | nil => rfl
  | cons st rest ih =>
    unfold loopEvents queriesExpected
    by_cases ht : isTerminal st = true
    · by_cases hc : st = recorded
      · subst hc
        simp [ht, List.filter_append, Event.isStatusQuery]
      · simp [hc, ht, List.filter_append, Event.isStatusQuery]
    · by_cases hc : st = recorded
      · subst hc
        simp [ht, List.filter_append, Event.isStatusQuery, ih, Nat.add_comm]
      · simp [hc, ht, List.filter_append, Event.isStatusQuery, ih, Nat.add_comm]

theorem isStatusNotice_notice (chatID : Int) (st : String) :
    (Event.sendMessage chatID ("Job 狀態: " ++ st)).isStatusNotice = true := by
  have h : "Job 狀態: ".data = ['J', 'o', 'b', ' ', '狀', '態', ':', ' '] := rfl
  simp [Event.isStatusNotice, String.data_append, h]

theorem statusNotices_loopEvents (s : SoraService) (chatID : Int) (jobID : String)
    (recorded : String) (sts : List String) :
    (loopEvents s chatID jobID recorded sts).filter Event.isStatusNotice
      = (changes recorded (polled sts)).map
          (fun st => Event.sendMessage chatID ("Job 狀態: " ++ st)) := by
  induction sts generalizing recorded with
  | nil => rfl
  | cons st rest ih =>
    unfold loopEvents polled
    by_cases ht : isTerminal st = true
    · by_cases hc : st = recorded
      · subst hc
        simp [ht, List.filter_append, Event.isStatusNotice, changes]
      · simp [hc, ht, List.filter_append, Event.isStatusNotice, changes,
          isStatusNotice_notice]
    · by_cases hc : st = recorded
      · subst hc
        simp [ht, List.filter_append, Event.isStatusNotice, ih, changes]
      · simp [hc, ht, List.filter_append, Event.isStatusNotice, ih, changes,
          isStatusNotice_notice]

/-! ## Lemmas on the submission and the retrieval -/

theorem fresh_stringField (json : Except String JSON) (key : String) :
    (match unmarshalInto [] json with
      | .ok m => (GoMap.get m key).asString
      | .error _ => none) = stringField json key := by
  unfold stringField
  cases json with
  | error e => rfl
  | ok v => cases v <;> simp [unmarshalInto, GoMap.get, JSON.asString]

theorem submitJob_created (w : World) (s : SoraService) (chatID : Int) (prompt : String)
    (jobID : String) (pre : List Event)
    (h : submitJob w s chatID prompt = .ok (jobID, pre)) :
    createdJobID w.create = some jobID ∧ pre.filter Event.isStatusQuery = [] ∧
      pre.filter Event.isStatusNotice = [] ∧ pre.filter Event.isDownload = [] := by
  unfold submitJob at h
  split at h
  · cases h
  · split at h
    · cases h
    · rename_i resp hresp
      split at h
      · cases h
      · rename_i hcode
        have h201 : resp.StatusCode = 201 := by simpa using hcode
        have hf := fresh_stringField resp.Json "id"
        split at h
        · cases h
        · rename_i createResult hum
          rw [hum] at hf
          split at h
          · cases h
          · rename_i jid hjid
            simp only [Except.ok.injEq, Prod.mk.injEq] at h
            obtain ⟨hj, hp⟩ := h
            subst hj
            subst hp
            refine ⟨?_, rfl, rfl, rfl⟩
            simp only [createdJobID, hresp, h201, if_true]
            rw [← hf]
            exact hjid

theorem submitJob_rejected (w : World) (s : SoraService) (chatID : Int) (prompt : String)
    (h : createdJobID w.create = none) :
    ∃ msg tr, submitJob w s chatID prompt = .error (msg, tr) ∧
      tr.filter Event.isStatusQuery = [] := by
  cases hsub : submitJob w s chatID prompt with
  | ok p =>
    obtain ⟨jobID, pre⟩ := p
    have := (submitJob_created w s chatID prompt jobID pre hsub).1
    rw [h] at this
    cases this
  | error p =>
    obtain ⟨msg, tr⟩ := p
    refine ⟨msg, tr, rfl, ?_⟩
    unfold submitJob at hsub
    split at hsub
    · simp only [Except.error.injEq, Prod.mk.injEq] at hsub
      rw [← hsub.2]; rfl
    · split at hsub
      · simp only [Except.error.injEq, Prod.mk.injEq] at hsub
        rw [← hsub.2]; rfl
      · split at hsub
        · simp only [Except.error.injEq, Prod.mk.injEq] at hsub
          rw [← hsub.2]; rfl
        · split at hsub
          · simp only [Except.error.injEq, Prod.mk.injEq] at hsub
            rw [← hsub.2]; rfl
          · split at hsub
            · simp only [Except.error.injEq, Prod.mk.injEq] at hsub
              rw [← hsub.2]; rfl
            · cases hsub

theorem notice_failed_text (chatID : Int) (c : String) :
    (Event.sendMessage chatID
      ("影片生成任務未成功。最終狀態: " ++ c ++ " ❌")).isStatusNotice = false := by
  show (List.take 8 (_ ++ c ++ _ : String).data == _) = false
  rw [String.data_append, String.data_append, List.append_assoc,
    List.take_append_of_le_length (by decide)]
  decide

theorem notice_saved_text (chatID : Int) (f : String) :
    (Event.sendMessage chatID ("影片已下載到伺服器: `" ++ f ++ "`")).isStatusNotice = false := by
  show (List.take 8 (_ ++ f ++ _ : String).data == _) = false
  rw [String.data_append, String.data_append, List.append_assoc,
    List.take_append_of_le_length (by decide)]
  decide

theorem saveVideo_queries (w : World) (chatID : Int) (tr : List Event) :
    (saveVideo w chatID tr).2.filter Event.isStatusQuery = tr.filter Event.isStatusQuery := by
  unfold saveVideo
  repeat' split
  all_goals simp [List.filter_append, Event.isStatusQuery]

theorem saveVideo_notices (w : World) (chatID : Int) (tr : List Event) :
    (saveVideo w chatID tr).2.filter Event.isStatusNotice = tr.filter Event.isStatusNotice := by
  unfold saveVideo
  repeat' split
  all_goals simp [List.filter_append, notice_saved_text, Event.isStatusNotice]

theorem saveVideo_returns (w : World) (chatID : Int) (tr : List Event) :
    (saveVideo w chatID tr).1 ≠ .polling := by
  unfold saveVideo
  repeat' split
  all_goals simp

theorem fetchVideo_not_succeeded (w : World) (s : SoraService) (chatID : Int) (c : String)
    (m : GoMap) (tr : List Event) (hc : c ≠ "succeeded") :
    fetchVideo w s chatID c m tr =
      (.error ("SoraService: 影片生成任務未成功。最終狀態: " ++ c),
        tr ++ [Event.sendMessage chatID ("影片生成任務未成功。最終狀態: " ++ c ++ " ❌")]) := by
  unfold fetchVideo
  rw [if_pos hc]

theorem fetchVideo_queries (w : World) (s : SoraService) (chatID : Int) (c : String)
    (m : GoMap) (tr : List Event) :
    (fetchVideo w s chatID c m tr).2.filter Event.isStatusQuery
      = tr.filter Event.isStatusQuery := by
  unfold fetchVideo
  repeat' split
  all_goals simp [List.filter_append, Event.isStatusQuery, saveVideo_queries]

theorem fetchVideo_notices (w : World) (s : SoraService) (chatID : Int) (c : String)
    (m : GoMap) (tr : List Event) :
    (fetchVideo w s chatID c m tr).2.filter Event.isStatusNotice
      = tr.filter Event.isStatusNotice := by
  have k1 : (Event.sendMessage chatID "✅ 影片生成成功。").isStatusNotice = false := rfl
  have k2 : (Event.sendMessage chatID "正在下載影片... 📥").isStatusNotice = false := rfl
  unfold fetchVideo
  repeat' split
  all_goals simp [List.filter_append, notice_failed_text, k1, k2,
    Event.isStatusNotice, saveVideo_notices]

theorem fetchVideo_returns (w : World) (s : SoraService) (chatID : Int) (c : String)
    (m : GoMap) (tr : List Event) :
    (fetchVideo w s chatID c m tr).1 ≠ .polling := by
  unfold fetchVideo
  repeat' split
  all_goals simp [saveVideo_returns]

theorem submitJob_error_trace (w : World) (s : SoraService) (chatID : Int) (prompt : String)
    (msg : String) (tr : List Event)
    (hsub : submitJob w s chatID prompt = .error (msg, tr)) :
    tr.filter Event.isStatusQuery = [] ∧ tr.filter Event.isDownload = [] := by
  unfold submitJob at hsub
  repeat' split at hsub
  all_goals first
    | (simp only [Except.error.injEq, Prod.mk.injEq] at hsub
       rw [← hsub.2]
       exact ⟨rfl, rfl⟩)
    | cases hsub

theorem submitJob_accepts (w : World) (s : SoraService) (chatID : Int) (prompt : String)
    (jobID : String)
    (hnew : w.NewRequest "POST" (createURL s) = .ok ())
    (hcreate : createdJobID w.create = some jobID) :
    ∃ pre, submitJob w s chatID prompt = .ok (jobID, pre) := by
  cases hc : w.create with
  | error e => rw [hc] at hcreate; cases hcreate
  | ok resp =>
    rw [hc] at hcreate
    unfold createdJobID at hcreate
    by_cases h201 : resp.StatusCode = 201
    · simp only [h201, if_true] at hcreate
      have hf := fresh_stringField resp.Json "id"
      rw [hcreate] at hf
      unfold submitJob
      simp only [hnew, hc, h201, ne_eq, not_true_eq_false, if_false]
      split at hf
      · rename_i m hm
        simp only [hm, hf]
        exact ⟨_, rfl⟩
      · cases hf
    · simp [h201] at hcreate

theorem pollLoop_filter (w : World) (s : SoraService) (chatID : Int) (jobID : String)
    (P : Event → Bool) (hs : P (Event.sleep 5) = false)
    (hq : P (Event.statusQuery (statusURL s jobID)) = false)
    (hn : ∀ st, P (Event.sendMessage chatID ("Job 狀態: " ++ st)) = false)
    (polls : List (Except String HttpResponse)) (cur : String) (m : GoMap) (tr : List Event) :
    (pollLoop w s chatID jobID polls cur m tr).trace.filter P = tr.filter P := by
  induction polls generalizing cur m tr with
  | nil =>
    rw [pollLoop]
    repeat' split
    all_goals simp [LoopResult.trace, List.filter_append, hs, hq]
  | cons a rest ih =>
    cases a with
    | error e =>
      rw [pollLoop]
      repeat' split
      all_goals simp [LoopResult.trace, List.filter_append, hs, hq]
    | ok resp =>
      rw [pollLoop]
      repeat' split
      all_goals first
        | (rw [ih]
           simp [List.filter_append, hs, hq, hn])
        | simp [LoopResult.trace, List.filter_append, hs, hq]

theorem pollLoop_query_urls (w : World) (s : SoraService) (chatID : Int) (jobID : String)
    (polls : List (Except String HttpResponse)) (cur : String) (m : GoMap) (tr : List Event)
    (htr : tr.filter Event.isStatusQuery = []) :
    ∀ url, Event.statusQuery url ∈ (pollLoop w s chatID jobID polls cur m tr).trace →
      url = statusURL s jobID := by
  intro url hurl
  have hfil := pollLoop_filter w s chatID jobID (Event.isOtherQuery (statusURL s jobID)) rfl
    (by simp [Event.isOtherQuery]) (fun _ => rfl) polls cur m tr
  have hnone : tr.filter (Event.isOtherQuery (statusURL s jobID)) = [] := by
    rw [List.filter_eq_nil_iff] at htr ⊢
    intro e he
    have := htr e he
    cases e <;> simp_all [Event.isOtherQuery, Event.isStatusQuery]
  rw [hnone, List.filter_eq_nil_iff] at hfil
  have := hfil _ hurl
  simpa [Event.isOtherQuery] using this

theorem pollLoop_exit_terminal (w : World) (s : SoraService) (chatID : Int) (jobID : String)
    (polls : List (Except String HttpResponse)) (cur : String) (m : GoMap) (tr : List Event)
    (c : String) (m1 : GoMap) (t : List Event)
    (h : pollLoop w s chatID jobID polls cur m tr = .exit c m1 t) :
    c = "succeeded" ∨ c = "failed" ∨ c = "cancelled" := by
  induction polls generalizing cur m tr with
  | nil =>
    rw [pollLoop] at h
    repeat' split at h
    all_goals first
      | (cases h; assumption)
      | cases h
  | cons a rest ih =>
    cases a with
    | error e =>
      rw [pollLoop] at h
      repeat' split at h
      all_goals first
        | (cases h; assumption)
        | cases h
    | ok resp =>
      rw [pollLoop] at h
      repeat' split at h
      all_goals first
        | exact ih _ _ _ h
        | (cases h; assumption)
        | cases h

/-! ## Lemmas on `GenerateVideo` as a whole -/

theorem GenerateVideo_of_submit (w : World) (s : SoraService) (chatID : Int)
    (prompt jobID : String) (pre : List Event)
    (hsub : submitJob w s chatID prompt = .ok (jobID, pre)) :
    s.GenerateVideo w chatID prompt =
      match pollLoop w s chatID jobID w.polls "" [] pre with
      | .fail msg trace => (.error msg, trace)
      | .polling trace => (.polling, trace)
      | .exit currentStatus statusResult trace =>
        fetchVideo w s chatID currentStatus statusResult trace := by
  unfold SoraService.GenerateVideo
  rw [hsub]

theorem GenerateVideo_queries (w : World) (s : SoraService) (chatID : Int)
    (prompt jobID : String) (pre : List Event)
    (hsub : submitJob w s chatID prompt = .ok (jobID, pre)) :
    (s.GenerateVideo w chatID prompt).2.filter Event.isStatusQuery =
      (pollLoop w s chatID jobID w.polls "" [] pre).trace.filter Event.isStatusQuery := by
  rw [GenerateVideo_of_submit w s chatID prompt jobID pre hsub]
  cases pollLoop w s chatID jobID w.polls "" [] pre <;>
    simp [LoopResult.trace, fetchVideo_queries]

theorem GenerateVideo_notices (w : World) (s : SoraService) (chatID : Int)
    (prompt jobID : String) (pre : List Event)
    (hsub : submitJob w s chatID prompt = .ok (jobID, pre)) :
    (s.GenerateVideo w chatID prompt).2.filter Event.isStatusNotice =
      (pollLoop w s chatID jobID w.polls "" [] pre).trace.filter Event.isStatusNotice := by
  rw [GenerateVideo_of_submit w s chatID prompt jobID pre hsub]
  cases pollLoop w s chatID jobID w.polls "" [] pre <;>
    simp [LoopResult.trace, fetchVideo_notices]

theorem queriesExpected_running (sts : List String)
    (h : ∀ x ∈ sts, isTerminal x = false) : queriesExpected sts = sts.length + 1 := by
  induction sts with
  | nil => rfl
  | cons st rest ih =>
    have h1 := h st (List.mem_cons_self _ _)
    have h2 := ih (fun x hx => h x (List.mem_cons_of_mem _ hx))
    simp [queriesExpected, h1, h2, Nat.add_comm]

theorem queriesExpected_split (before after : List String) (t : String)
    (h : ∀ x ∈ before, isTerminal x = false) (ht : isTerminal t = true) :
    queriesExpected (before ++ t :: after) = before.length + 1 := by
  induction before with
  | nil => simp [queriesExpected, ht]
  | cons st rest ih =>
    have h1 := h st (List.mem_cons_self _ _)
    have h2 := ih (fun x hx => h x (List.mem_cons_of_mem _ hx))
    simp [queriesExpected, h1, h2, Nat.add_comm]

/-! ## The polling loop (C11, C12, C13) -/

/-- C11: after a successful submission, for every script of successful status responses
reporting the statuses `sts`, the polling loop of `GenerateVideo` issues exactly one status
query per response up to and including the first response whose status is `succeeded`,
`failed` or `cancelled`, and then stops (the call leaves the loop); as long as the statuses
are any other strings it issues another status query after every response, so that a
script without a terminal status leaves the call polling with one query more than
responses. -/
theorem GenerateVideo_polls_until_terminal (w : World) (s : SoraService) (chatID : Int)
    (prompt jobID : String) (sts : List String)
    (hpost : w.NewRequest "POST" (createURL s) = .ok ())
    (hcreate : createdJobID w.create = some jobID)
    (hget : w.NewRequest "GET" (statusURL s jobID) = .ok ())
    (hrep : w.polls.map reportedStatus = sts.map some) :
    (∀ before t after, sts = before ++ t :: after →
      (∀ x ∈ before, isTerminal x = false) → isTerminal t = true →
      ((s.GenerateVideo w chatID prompt).2.filter Event.isStatusQuery).length
          = before.length + 1 ∧
        (s.GenerateVideo w chatID prompt).1 ≠ .polling) ∧
    ((∀ x ∈ sts, isTerminal x = false) →
      ((s.GenerateVideo w chatID prompt).2.filter Event.isStatusQuery).length
          = sts.length + 1 ∧
        (s.GenerateVideo w chatID prompt).1 = .polling) := by
  obtain ⟨pre, hsub⟩ := submitJob_accepts w s chatID prompt jobID hpost hcreate
  have hpre := (submitJob_created w s chatID prompt jobID pre hsub).2.1
  obtain ⟨htrace, hexit, hpoll⟩ :=
    pollLoop_script w s chatID jobID hget w.polls sts hrep "" [] pre rfl
  have hcount : ((s.GenerateVideo w chatID prompt).2.filter Event.isStatusQuery).length
      = queriesExpected sts := by
    rw [GenerateVideo_queries w s chatID prompt jobID pre hsub, htrace, List.filter_append,
      hpre, List.nil_append, statusQueries_loopEvents]
  constructor
  · intro before t after hsts hbefore ht
    refine ⟨?_, ?_⟩
    · rw [hcount, hsts, queriesExpected_split before after t hbefore ht]
    · obtain ⟨c, m1, tr, hl⟩ := hexit ⟨t, by rw [hsts]; simp, ht⟩
      rw [GenerateVideo_of_submit w s chatID prompt jobID pre hsub, hl]
      exact fetchVideo_returns w s chatID c m1 tr
  · intro hall
    refine ⟨?_, ?_⟩
    · rw [hcount, queriesExpected_running sts hall]
    · obtain ⟨tr, hl⟩ := hpoll hall
      rw [GenerateVideo_of_submit w s chatID prompt jobID pre hsub, hl]

/-- Witness of C11: the scenario `queued, running, running, succeeded` issues four status
queries and returns. -/
theorem GenerateVideo_polls_until_terminal_witness :
    scenarioWorld.polls.map reportedStatus
      = ["queued", "running", "running", "succeeded"].map some ∧
    ((soraService.GenerateVideo scenarioWorld 7 "a cat").2.filter Event.isStatusQuery).length
      = 3 + 1 ∧
    (soraService.GenerateVideo scenarioWorld 7 "a cat").1 ≠ .polling :=
  ⟨rfl, (GenerateVideo_polls_until_terminal scenarioWorld soraService 7 "a cat" "job-1"
    ["queued", "running", "running", "succeeded"] rfl rfl rfl rfl).1
    ["queued", "running", "running"] "succeeded" [] rfl (by decide) (by decide)⟩

/-- C12: after a successful submission, for every script of successful status responses
reporting the statuses `sts`, the job-status notifications sent are exactly those of the
polls whose status differs from the status recorded after the previous poll, the recorded
status being empty before the first poll; consecutive polls with the same status give one
notification. -/
theorem GenerateVideo_notifies_changes (w : World) (s : SoraService) (chatID : Int)
    (prompt jobID : String) (sts : List String)
    (hpost : w.NewRequest "POST" (createURL s) = .ok ())
    (hcreate : createdJobID w.create = some jobID)
    (hget : w.NewRequest "GET" (statusURL s jobID) = .ok ())
    (hrep : w.polls.map reportedStatus = sts.map some) :
    (s.GenerateVideo w chatID prompt).2.filter Event.isStatusNotice =
      (changes "" (polled sts)).map
        (fun st => Event.sendMessage chatID ("Job 狀態: " ++ st)) := by
  obtain ⟨pre, hsub⟩ := submitJob_accepts w s chatID prompt jobID hpost hcreate
  have hpre := (submitJob_created w s chatID prompt jobID pre hsub).2.2.1
  obtain ⟨htrace, _, _⟩ :=
    pollLoop_script w s chatID jobID hget w.polls sts hrep "" [] pre rfl
  rw [GenerateVideo_notices w s chatID prompt jobID pre hsub, htrace, List.filter_append,
    hpre, List.nil_append, statusNotices_loopEvents]

/-- Witness of C12: for the polls `queued, running, running, succeeded` the notifications
are exactly `queued, running, succeeded`. -/
theorem GenerateVideo_notifies_changes_witness :
    scenarioWorld.polls.map reportedStatus
      = ["queued", "running", "running", "succeeded"].map some ∧
    (soraService.GenerateVideo scenarioWorld 7 "a cat").2.filter Event.isStatusNotice =
      [Event.sendMessage 7 "Job 狀態: queued", Event.sendMessage 7 "Job 狀態: running",
        Event.sendMessage 7 "Job 狀態: succeeded"] :=
  ⟨rfl, GenerateVideo_notifies_changes scenarioWorld soraService 7 "a cat" "job-1"
    ["queued", "running", "running", "succeeded"] rfl rfl rfl rfl⟩

/-- C13: if the submission succeeded and the polling loop ends with a final status `c`
other than `succeeded` (then `c` is `failed` or `cancelled`), `GenerateVideo` returns the
error whose text ends with `c`, no path, and its effects contain no download request. -/
theorem GenerateVideo_fails_unless_succeeded (w : World) (s : SoraService) (chatID : Int)
    (prompt jobID : String) (pre : List Event) (c : String) (m : GoMap) (tr : List Event)
    (hsub : submitJob w s chatID prompt = .ok (jobID, pre))
    (hloop : pollLoop w s chatID jobID w.polls "" [] pre = .exit c m tr)
    (hc : c ≠ "succeeded") :
    (c = "failed" ∨ c = "cancelled") ∧
    (s.GenerateVideo w chatID prompt).1
      = .error ("SoraService: 影片生成任務未成功。最終狀態: " ++ c) ∧
    (s.GenerateVideo w chatID prompt).2.filter Event.isDownload = [] := by
  have hterm := pollLoop_exit_terminal w s chatID jobID w.polls "" [] pre c m tr hloop
  have hpre := (submitJob_created w s chatID prompt jobID pre hsub).2.2.2
  have htr := pollLoop_filter w s chatID jobID Event.isDownload rfl rfl (fun _ => rfl)
    w.polls "" [] pre
  rw [hloop, hpre] at htr
  rw [GenerateVideo_of_submit w s chatID prompt jobID pre hsub, hloop]
  simp only []
  rw [fetchVideo_not_succeeded w s chatID c m tr hc]
  refine ⟨?_, rfl, ?_⟩
  · rcases hterm with h | h | h
    · exact absurd h hc
    · exact Or.inl h
    · exact Or.inr h
  · simp only [LoopResult.trace] at htr
    rw [List.filter_append, htr]
    rfl

/-- Witness of C13: a job reported `running`, then `failed`. -/
theorem GenerateVideo_fails_unless_succeeded_witness :
    (soraService.GenerateVideo failedWorld 7 "a cat").1
      = .error "SoraService: 影片生成任務未成功。最終狀態: failed" ∧
    (soraService.GenerateVideo failedWorld 7 "a cat").2.filter Event.isDownload = [] :=
  (GenerateVideo_fails_unless_succeeded failedWorld soraService 7 "a cat" "job-1" _ "failed"
    _ _ rfl rfl (by decide)).2

/-! ## Submission (C16) -/

theorem mem_statusQuery_filter (url : String) (tr : List Event) :
    Event.statusQuery url ∈ tr ↔ Event.statusQuery url ∈ tr.filter Event.isStatusQuery := by
  simp [List.mem_filter, Event.isStatusQuery]

theorem statusURL_eq (s : SoraService) (jobID : String) :
    statusURL s jobID = trimSuffixSlash s.endpoint ++ "/openai/v1/video/generations/jobs/" ++
      jobID ++ "?api-version=" ++ s.apiVersion := rfl

theorem string_append_cancel (a b x y : String) (h : a ++ x ++ b = a ++ y ++ b) : x = y := by
  have hd := congrArg String.data h
  simp only [String.data_append] at hd
  have h1 := List.append_cancel_right hd
  have h2 := List.append_cancel_left h1
  exact String.ext h2

theorem statusURL_injective (s : SoraService) (j1 j2 : String)
    (h : statusURL s j1 = statusURL s j2) : j1 = j2 := by
  rw [statusURL_eq, statusURL_eq] at h
  have h1 : (trimSuffixSlash s.endpoint ++ "/openai/v1/video/generations/jobs/") ++ j1 ++
      ("?api-version=" ++ s.apiVersion)
      = (trimSuffixSlash s.endpoint ++ "/openai/v1/video/generations/jobs/") ++ j2 ++
      ("?api-version=" ++ s.apiVersion) := by
    simpa only [String.append_assoc] using h
  exact string_append_cancel _ _ _ _ h1

theorem pollLoop_trace_mono (w : World) (s : SoraService) (chatID : Int) (jobID : String)
    (polls : List (Except String HttpResponse)) (cur : String) (m : GoMap) (tr : List Event)
    (e : Event) (he : e ∈ tr) : e ∈ (pollLoop w s chatID jobID polls cur m tr).trace := by
  induction polls generalizing cur m tr with
  | nil =>
    rw [pollLoop]
    repeat' split
    all_goals simp [LoopResult.trace, he]
  | cons a rest ih =>
    cases a with
    | error doErr =>
      rw [pollLoop]
      repeat' split
      all_goals simp [LoopResult.trace, he]
    | ok statusResp =>
      rw [pollLoop]
      repeat' split
      all_goals first
        | (apply ih; simp [he])
        | simp [LoopResult.trace, he]

theorem pollLoop_first_query (w : World) (s : SoraService) (chatID : Int) (jobID : String)
    (polls : List (Except String HttpResponse)) (cur : String) (m : GoMap) (tr : List Event)
    (hcur : ¬ (cur = "succeeded" ∨ cur = "failed" ∨ cur = "cancelled"))
    (hget : w.NewRequest "GET" (statusURL s jobID) = .ok ()) :
    Event.statusQuery (statusURL s jobID) ∈ (pollLoop w s chatID jobID polls cur m tr).trace := by
  cases polls with
  | nil =>
    rw [pollLoop, if_neg hcur]
    simp only [hget]
    simp [LoopResult.trace]
  | cons a rest =>
    cases a with
    | error doErr =>
      rw [pollLoop, if_neg hcur]
      simp only [hget]
      simp [LoopResult.trace]
    | ok statusResp =>
      rw [pollLoop, if_neg hcur]
      simp only [hget]
      repeat' split
      all_goals first
        | (apply pollLoop_trace_mono; simp)
        | simp [LoopResult.trace]

/-- C16: when the creation response has an HTTP status other than 201, or its body has no
string field `id`, `GenerateVideo` returns an error and its effects contain no status
query. When the status is 201 and the body has the string field `id`, every status query
goes to the URL made of the endpoint without its final slash, the path
`/openai/v1/video/generations/jobs/`, that id, and the API version parameter; no other id
gives the URL of a status query; and when the creation request and the status request can
be built, a status query with that URL is issued. -/
theorem GenerateVideo_submission_gate (w : World) (s : SoraService) (chatID : Int)
    (prompt : String) (resp : HttpResponse) (hcreate : w.create = .ok resp) :
    ((resp.StatusCode ≠ 201 ∨ stringField resp.Json "id" = none) →
      (∃ msg, (s.GenerateVideo w chatID prompt).1 = .error msg) ∧
        (s.GenerateVideo w chatID prompt).2.filter Event.isStatusQuery = []) ∧
    (∀ jobID, resp.StatusCode = 201 → stringField resp.Json "id" = some jobID →
      (∀ url, Event.statusQuery url ∈ (s.GenerateVideo w chatID prompt).2 →
        url = trimSuffixSlash s.endpoint ++ "/openai/v1/video/generations/jobs/" ++ jobID ++
          "?api-version=" ++ s.apiVersion) ∧
      (∀ other, Event.statusQuery
          (trimSuffixSlash s.endpoint ++ "/openai/v1/video/generations/jobs/" ++ other ++
            "?api-version=" ++ s.apiVersion) ∈ (s.GenerateVideo w chatID prompt).2 →
        other = jobID) ∧
      ((∀ method url, w.NewRequest method url = .ok ()) →
        Event.statusQuery
          (trimSuffixSlash s.endpoint ++ "/openai/v1/video/generations/jobs/" ++ jobID ++
            "?api-version=" ++ s.apiVersion) ∈ (s.GenerateVideo w chatID prompt).2)) := by
  constructor
  · intro hbad
    have hnone : createdJobID w.create = none := by
      rw [hcreate]
      show (if resp.StatusCode = 201 then stringField resp.Json "id" else none) = none
      rcases hbad with h | h
      · rw [if_neg h]
      · rw [h]
        split <;> rfl
    obtain ⟨msg, tr, hsub, htr⟩ := submitJob_rejected w s chatID prompt hnone
    unfold SoraService.GenerateVideo
    rw [hsub]
    exact ⟨⟨msg, rfl⟩, htr⟩
  · intro jobID h201 hid
    have hsome : createdJobID w.create = some jobID := by
      rw [hcreate]
      show (if resp.StatusCode = 201 then stringField resp.Json "id" else none) = some jobID
      rw [if_pos h201]
      exact hid
    have hall : ∀ url, Event.statusQuery url ∈ (s.GenerateVideo w chatID prompt).2 →
        url = statusURL s jobID := by
      intro url hurl
      cases hsub : submitJob w s chatID prompt with
      | error p =>
        obtain ⟨msg, tr⟩ := p
        have htr := (submitJob_error_trace w s chatID prompt msg tr hsub).1
        unfold SoraService.GenerateVideo at hurl
        rw [hsub] at hurl
        rw [mem_statusQuery_filter] at hurl
        simp only [] at hurl
        rw [htr] at hurl
        cases hurl
      | ok p =>
        obtain ⟨j, pre⟩ := p
        obtain ⟨hj, hpre, _, _⟩ := submitJob_created w s chatID prompt j pre hsub
        rw [hsome] at hj
        cases hj
        rw [mem_statusQuery_filter, GenerateVideo_queries w s chatID prompt jobID pre hsub,
          ← mem_statusQuery_filter] at hurl
        exact pollLoop_query_urls w s chatID jobID w.polls "" [] pre hpre url hurl
    refine ⟨fun url hurl => hall url hurl, ?_, ?_⟩
    · intro other hmem
      exact statusURL_injective s other jobID (hall _ hmem)
    · intro hreq
      obtain ⟨pre, hsub⟩ := submitJob_accepts w s chatID prompt jobID (hreq _ _) hsome
      rw [mem_statusQuery_filter, GenerateVideo_queries w s chatID prompt jobID pre hsub,
        ← mem_statusQuery_filter]
      exact pollLoop_first_query w s chatID jobID w.polls "" [] pre (by decide) (hreq _ _)

/-- Witness of C16: a creation request answered with HTTP 500 fails without any status
query; in the scenario of the specification, where the creation response is
`201 {"id":"job-1"}`, the four status queries all go to the URL that holds `job-1`. -/
theorem GenerateVideo_submission_gate_witness :
    ((∃ msg, (soraService.GenerateVideo (rejectedWorld 500) 7 "a cat").1 = .error msg) ∧
      (soraService.GenerateVideo (rejectedWorld 500) 7 "a cat").2.filter Event.isStatusQuery
        = []) ∧
    (∀ url, Event.statusQuery url ∈ (soraService.GenerateVideo scenarioWorld 7 "a cat").2 →
      url = "https://bot.openai.azure.com/openai/v1/video/generations/jobs/job-1?api-version=preview") ∧
    Event.statusQuery
      "https://bot.openai.azure.com/openai/v1/video/generations/jobs/job-1?api-version=preview"
      ∈ (soraService.GenerateVideo scenarioWorld 7 "a cat").2 ∧
    (soraService.GenerateVideo scenarioWorld 7 "a cat").2.filter Event.isStatusQuery
      = List.replicate 4 (Event.statusQuery
        "https://bot.openai.azure.com/openai/v1/video/generations/jobs/job-1?api-version=preview") :=
  ⟨(GenerateVideo_submission_gate (rejectedWorld 500) soraService 7 "a cat" _ rfl).1
      (Or.inl (by decide)),
    ((GenerateVideo_submission_gate scenarioWorld soraService 7 "a cat" _ rfl).2
      "job-1" rfl rfl).1,
    ((GenerateVideo_submission_gate scenarioWorld soraService 7 "a cat" _ rfl).2
      "job-1" rfl rfl).2.2 (fun _ _ => rfl),
    by decide⟩

/-! ## Stale entries of `statusResult` (C14, C15, C17) -/

/-- C14 (evaluation at the failing input): the final status response is
`{"status":"succeeded"}`, without a `generations` field, in both worlds; the content
requested is that of the generation listed by the earlier `running` response, `gen-old`
in one world and `gen-other` in the other. -/
theorem GenerateVideo_uses_stale_generation :
    (staleWorld "gen-old").polls.getLast? = (staleWorld "gen-other").polls.getLast? ∧
    ((staleWorld "gen-old").polls.getLast?.map
      (fun r => match r with
        | .ok resp => stringField resp.Json "status"
        | .error _ => none)) = some (some "succeeded") ∧
    (soraService.GenerateVideo (staleWorld "gen-old") 7 "a cat").2.filter Event.isDownload
      = [Event.download (videoURL soraService "gen-old")] ∧
    (soraService.GenerateVideo (staleWorld "gen-other") 7 "a cat").2.filter Event.isDownload
      = [Event.download (videoURL soraService "gen-other")] :=
  ⟨rfl, rfl, by decide, by decide⟩

/-- C15 (evaluation at the failing input): the job succeeds with the status payload
`{"status":"succeeded"}`, which has no `generations` entry; `GenerateVideo` does not fail:
it requests the content of `gen-0`, listed by the earlier `queued` response, and returns
a path. -/
theorem GenerateVideo_succeeds_without_generations :
    bareSuccessWorld.polls.map reportedStatus = [some "queued", some "succeeded"] ∧
    (soraService.GenerateVideo bareSuccessWorld 7 "a cat").1
      = .ok "tmp/sora_output_1700000000.mp4" ∧
    (soraService.GenerateVideo bareSuccessWorld 7 "a cat").2.filter Event.isDownload
      = [Event.download (videoURL soraService "gen-0")] :=
  ⟨rfl, by decide, by decide⟩

/-- C17 (evaluation at the failing input): the second status response is `{}`, a body
without a `status` field; `GenerateVideo` does not return an error: it issues a third
status query, downloads and returns a path. The same body as first response is
rejected. -/
theorem GenerateVideo_continues_without_status :
    missingStatusWorld.polls.map reportedStatus
      = [some "running", none, some "succeeded"] ∧
    (soraService.GenerateVideo missingStatusWorld 7 "a cat").1
      = .ok "tmp/sora_output_1700000000.mp4" ∧
    ((soraService.GenerateVideo missingStatusWorld 7 "a cat").2.filter
      Event.isStatusQuery).length = 3 ∧
    (soraService.GenerateVideo missingStatusWorld 7 "a cat").2.filter Event.isDownload
      = [Event.download (videoURL soraService "gen-1")] ∧
    (soraService.GenerateVideo missingStatusFirstWorld 7 "a cat").1
      = .error "SoraService: 狀態回應中未找到 \x27status\x27 字段" :=
  ⟨rfl, by decide, by decide, by decide, by decide⟩

/-! ## The scan of `TrimMessages` (C19, C20) -/

theorem trimLoop_scan (tk : Tokenizer) (s : OpenAIService) (modelName : String)
    (maxTokens : Int) (messages : List Message) (k : Nat) (enc : Tiktoken)
    (hok : ∀ msgs, s.CountTokens tk modelName msgs = .ok (countWith enc msgs))
    (j : Nat) (trimmed : List Message) (hj : j ≤ messages.length) :
    ∃ i, i ≤ j ∧ (k ≤ i ∨ i = j) ∧
      trimLoop tk s modelName maxTokens messages k j trimmed
        = (messages.take j).drop i ++ trimmed ∧
      (i < j → (countWith enc ((messages.take j).drop i ++ trimmed) : Int) ≤ maxTokens) ∧
      (k < i → ∃ mi, messages[i - 1]? = some mi ∧
        maxTokens < (countWith enc ((messages.take j).drop i ++ trimmed ++ [mi]) : Int)) := by
  induction j generalizing trimmed with
  | zero =>
    refine ⟨0, Nat.le_refl _, Or.inr rfl, by simp [trimLoop], fun h => absurd h (by omega),
      fun h => absurd h (by omega)⟩
  | succ j ih =>
    have hlt : j < messages.length := by omega
    have hget : messages[j]? = some messages[j] := List.getElem?_eq_getElem hlt
    have hdropall : (messages.take (j + 1)).drop (j + 1) = [] :=
      List.drop_eq_nil_of_le (by simp)
    by_cases hjk : j < k
    · refine ⟨j + 1, Nat.le_refl _, Or.inr rfl, ?_, fun h => absurd h (by omega),
        fun h => absurd h (by omega)⟩
      rw [trimLoop, if_pos hjk, hdropall, List.nil_append]
    · by_cases hfit : (countWith enc (trimmed ++ [messages[j]]) : Int) ≤ maxTokens
      · obtain ⟨i, hi, hki, hres, hcnt, hbrk⟩ := ih ([messages[j]] ++ trimmed) (by omega)
        have hlist : (messages.take (j + 1)).drop i ++ trimmed
            = (messages.take j).drop i ++ ([messages[j]] ++ trimmed) := by
          rw [List.take_succ, hget, Option.toList,
            List.drop_append_of_le_length (by simp; omega), List.append_assoc]
        refine ⟨i, by omega, ?_, ?_, ?_, ?_⟩
        · rcases hki with h | h
          · exact Or.inl h
          · exact Or.inl (by omega)
        · rw [trimLoop_keep tk s modelName maxTokens messages k enc hok j messages[j] trimmed
            (by omega) hget hfit, hres, hlist]
        · intro _
          rw [hlist]
          by_cases hij : i < j
          · exact hcnt hij
          · have hieq : i = j := by omega
            have hnil : (messages.take j).drop i = [] :=
              List.drop_eq_nil_of_le (by simp; omega)
            rw [hnil, List.nil_append, countWith_swap]
            exact hfit
        · intro hk
          obtain ⟨mi, hmi, hover⟩ := hbrk hk
          exact ⟨mi, hmi, by rw [hlist]; exact hover⟩
      · refine ⟨j + 1, Nat.le_refl _, Or.inr rfl, ?_, fun h => absurd h (by omega), ?_⟩
        · rw [trimLoop_break tk s modelName maxTokens messages k enc hok j messages[j] trimmed
            hget (by omega), hdropall, List.nil_append]
        · intro _
          refine ⟨messages[j], by simp, ?_⟩
          rw [hdropall, List.nil_append]
          omega

theorem countWith_suffix (enc : Tiktoken) (front xs ys : List Message)
    (h : List.IsSuffix xs ys) :
    countWith enc (front ++ xs) ≤ countWith enc (front ++ ys) := by
  obtain ⟨pre, rfl⟩ := h
  simp only [countWith_eq, List.map_append, List.sum_append]
  omega

theorem filter_isSystem_leading (front rest : List Message)
    (hfront : ∀ m ∈ front, m.Role = "system") (hrest : ∀ m ∈ rest, m.Role ≠ "system") :
    (front ++ rest).filter isSystem = front ∧
    (front ++ rest).filter (fun m => !isSystem m) = rest := by
  have h1 : front.filter isSystem = front :=
    List.filter_eq_self.mpr (fun m hm => by simp [isSystem, hfront m hm])
  have h2 : rest.filter isSystem = [] :=
    List.filter_eq_nil_iff.mpr (fun m hm => by simp [isSystem, hrest m hm])
  have h3 : front.filter (fun m => !isSystem m) = [] :=
    List.filter_eq_nil_iff.mpr (fun m hm => by simp [isSystem, hfront m hm])
  have h4 : rest.filter (fun m => !isSystem m) = rest :=
    List.filter_eq_self.mpr (fun m hm => by simp [isSystem, hrest m hm])
  simp [List.filter_append, h1, h2, h3, h4]

theorem TrimMessages_scan_shape (tk : Tokenizer) (s : OpenAIService) (modelName : String)
    (S R : List Message) (enc : Tiktoken)
    (hok : ∀ msgs, s.CountTokens tk modelName msgs = .ok (countWith enc msgs))
    (hS : ∀ m ∈ S, m.Role = "system") (hR : ∀ m ∈ R, m.Role ≠ "system")
    (hpos : 0 < s.budget modelName)
    (hover : s.budget modelName < (countWith enc (S ++ R) : Int)) :
    ∃ d, d ≤ R.length ∧
      (s.TrimMessages tk modelName (S ++ R)).1.filter (fun m => !isSystem m) = R.drop d ∧
      (d < R.length → (countWith enc (S ++ R.drop d) : Int) ≤ s.budget modelName) ∧
      (0 < d → ∃ mi, R.drop (d - 1) = mi :: R.drop d ∧
        s.budget modelName < (countWith enc (S ++ mi :: R.drop d) : Int)) := by
  obtain ⟨hfS, hfR⟩ := filter_isSystem_leading S R hS hR
  rw [TrimMessages_of_over tk s modelName (S ++ R) enc hok hpos hover, hfS]
  obtain ⟨i, hi, hki, hres, hcnt, hbrk⟩ := trimLoop_scan tk s modelName (s.budget modelName)
    (S ++ R) S.length enc hok (S ++ R).length S (Nat.le_refl _)
  have hlen : (S ++ R).length = S.length + R.length := List.length_append S R
  have hSi : S.length ≤ i := by
    rcases hki with h | h
    · exact h
    · omega
  have hdrop : ((S ++ R).take (S ++ R).length).drop i = R.drop (i - S.length) := by
    rw [List.take_length, List.drop_append_eq_append_drop,
      List.drop_eq_nil_of_le hSi, List.nil_append]
  rw [hdrop] at hres hcnt hbrk
  have hRd : ∀ m ∈ R.drop (i - S.length), m.Role ≠ "system" :=
    fun m hm => hR m (List.mem_of_mem_drop hm)
  have hkept : (R.drop (i - S.length) ++ S).filter (fun m => !isSystem m)
      = R.drop (i - S.length) := by
    have h1 := (filter_isSystem_leading S (R.drop (i - S.length)) hS hRd).2
    rw [List.filter_append] at h1 ⊢
    have h3 : S.filter (fun m => !isSystem m) = [] :=
      List.filter_eq_nil_iff.mpr (fun m hm => by simp [isSystem, hS m hm])
    rw [h3] at h1 ⊢
    rw [List.nil_append] at h1
    rw [List.append_nil, h1]
  dsimp only
  rw [hres, hkept]
  refine ⟨i - S.length, by omega, rfl, ?_, ?_⟩
  · intro hd
    have hswap : countWith enc (S ++ R.drop (i - S.length))
        = countWith enc (R.drop (i - S.length) ++ S) := by
      simp only [countWith_eq, List.map_append, List.sum_append]
      omega
    rw [hswap]
    exact hcnt (by omega)
  · intro hd
    obtain ⟨mi, hmi, hbig⟩ := hbrk (by omega)
    have hidx : i - 1 - S.length < R.length := by omega
    have hmiR : R[i - 1 - S.length]? = some mi := by
      rw [← hmi, List.getElem?_append_right (by omega)]
    have hmiR1 : R[i - 1 - S.length] = mi := by
      rw [List.getElem?_eq_getElem hidx] at hmiR
      exact Option.some.inj hmiR
    have hidx1 : i - S.length - 1 = i - 1 - S.length := by omega
    have hcons : R.drop (i - 1 - S.length) = mi :: R.drop (i - S.length) := by
      rw [List.drop_eq_getElem_cons hidx, hmiR1]
      congr 2
      omega
    have hswap : countWith enc (R.drop (i - S.length) ++ S ++ [mi])
        = countWith enc (S ++ mi :: R.drop (i - S.length)) := by
      simp only [countWith_eq, List.map_append, List.map_cons, List.map_nil,
        List.sum_append, List.sum_cons, List.sum_nil]
      omega
    rw [hswap] at hbig
    exact ⟨mi, by rw [hidx1]; exact hcons, hbig⟩

/-- C19 (amended): for every over-budget history made of a leading run `S` of system
messages followed by non-system messages `R`, the non-system messages kept by
`TrimMessages` form a suffix of `R` (no kept message is older than a dropped one); no
suffix of `R` whose estimated token count together with `S` is within the budget is longer;
whenever `S` alone is within the budget, so is `S` together with the kept suffix; the
message of `R` next older than the kept ones, if there is one, would exceed the budget
together with `S` and the kept ones; and whenever `S` alone exceeds the budget, no
non-system message is kept. -/
theorem TrimMessages_keeps_longest_suffix (tk : Tokenizer) (s : OpenAIService)
    (modelName : String) (S R : List Message) (n : Nat)
    (hS : ∀ m ∈ S, m.Role = "system") (hR : ∀ m ∈ R, m.Role ≠ "system")
    (hcount : s.CountTokens tk modelName (S ++ R) = .ok n)
    (hover : s.budget modelName < (n : Int)) :
    List.IsSuffix ((s.TrimMessages tk modelName (S ++ R)).1.filter (fun m => !isSystem m)) R ∧
    (∀ T c, List.IsSuffix T R → s.CountTokens tk modelName (S ++ T) = .ok c →
      (c : Int) ≤ s.budget modelName →
      T.length ≤ ((s.TrimMessages tk modelName (S ++ R)).1.filter
        (fun m => !isSystem m)).length) ∧
    (∀ c, s.CountTokens tk modelName S = .ok c → (c : Int) ≤ s.budget modelName →
      ∃ c1, s.CountTokens tk modelName
          (S ++ (s.TrimMessages tk modelName (S ++ R)).1.filter (fun m => !isSystem m))
          = .ok c1 ∧ (c1 : Int) ≤ s.budget modelName) ∧
    (∀ m, List.IsSuffix
        (m :: (s.TrimMessages tk modelName (S ++ R)).1.filter (fun m => !isSystem m)) R →
      ∃ c, s.CountTokens tk modelName
          (S ++ m :: (s.TrimMessages tk modelName (S ++ R)).1.filter (fun m => !isSystem m))
          = .ok c ∧ s.budget modelName < (c : Int)) ∧
    (∀ c, s.CountTokens tk modelName S = .ok c → s.budget modelName < (c : Int) →
      (s.TrimMessages tk modelName (S ++ R)).1.filter (fun m => !isSystem m) = []) := by
  rcases CountTokens_uniform tk s modelName with ⟨e, herr⟩ | ⟨enc, hok⟩
  · rw [herr] at hcount; cases hcount
  rw [hok] at hcount
  have hn : countWith enc (S ++ R) = n := by injection hcount
  by_cases hb : s.budget modelName ≤ 0
  · rw [TrimMessages_of_nonpos tk s modelName (S ++ R) hb]
    refine ⟨List.nil_suffix, ?_, ?_, ?_, ?_⟩
    · intro T c _ hc hle
      rw [hok] at hc
      have h3 := three_le_countWith enc (S ++ T)
      have : countWith enc (S ++ T) = c := by injection hc
      omega
    · intro c hc hle
      rw [hok] at hc
      have h3 := three_le_countWith enc S
      have : countWith enc S = c := by injection hc
      omega
    · intro m _
      refine ⟨_, hok _, ?_⟩
      have h3 := three_le_countWith enc
        (S ++ m :: List.filter (fun m => !isSystem m) (([], 0) : List Message × Nat).1)
      omega
    · intro c _ _
      rfl
  · have hpos : 0 < s.budget modelName := by omega
    obtain ⟨d, hd, hkept, hcnt, hbrk⟩ := TrimMessages_scan_shape tk s modelName S R enc hok
      hS hR hpos (by omega)
    rw [hkept]
    refine ⟨List.drop_suffix _ R, ?_, ?_, ?_, ?_⟩
    · intro T c hT hc hle
      rw [hok] at hc
      have hcT : countWith enc (S ++ T) = c := by injection hc
      by_contra hlong
      have hlong1 : (R.drop d).length < T.length := by omega
      rw [List.length_drop] at hlong1
      have hTlen : T.length ≤ R.length := hT.length_le
      obtain ⟨mi, hcons, hbig⟩ := hbrk (by omega)
      have hsuf : List.IsSuffix (mi :: R.drop d) T := by
        rw [← hcons]
        refine List.suffix_of_suffix_length_le (List.drop_suffix _ R) hT ?_
        rw [List.length_drop]
        omega
      have hmono := countWith_suffix enc S _ _ hsuf
      omega
    · intro c hc hle
      rw [hok] at hc
      have hcS : countWith enc S = c := by injection hc
      refine ⟨_, hok _, ?_⟩
      by_cases hil : d < R.length
      · exact hcnt hil
      · have hnil : R.drop d = [] := List.drop_eq_nil_of_le (by omega)
        rw [hnil, List.append_nil]
        omega
    · intro m hm
      have hmlen := hm.length_le
      rw [List.length_cons, List.length_drop] at hmlen
      obtain ⟨mi, hcons, hbig⟩ := hbrk (by omega)
      have hmi : List.IsSuffix (mi :: R.drop d) R := by
        rw [← hcons]
        exact List.drop_suffix _ R
      have hsame : m :: R.drop d = mi :: R.drop d :=
        (List.suffix_of_suffix_length_le hm hmi (by simp)).eq_of_length (by simp)
      rw [hsame]
      exact ⟨_, hok _, hbig⟩
    · intro c hc hbig
      rw [hok] at hc
      have hcS : countWith enc S = c := by injection hc
      apply List.drop_eq_nil_of_le
      by_contra hlt
      have hfit := hcnt (by omega)
      have hmono := countWith_suffix enc S [] (R.drop d) List.nil_suffix
      rw [List.append_nil] at hmono
      omega

/-- Witness of C19 (amended). The six-message history under a budget of 40 keeps
`[u2, a2, u3]`, a suffix of the non-system messages that fits with `sys`
(count 33), while the next older message `a1` would bring the count to 46. The history
`[sys, u3]` under a budget of 5, where `sys` alone counts 10, keeps no non-system
message, and the candidate `u3` at which the scan stops would exceed the budget. -/
theorem TrimMessages_keeps_longest_suffix_witness :
    ((smallService 40 0).CountTokens charTokenizer "m" ([sys] ++ [u1, a1, u2, a2, u3])
        = .ok 54 ∧
      ((smallService 40 0).TrimMessages charTokenizer "m"
        ([sys] ++ [u1, a1, u2, a2, u3])).1.filter (fun m => !isSystem m) = [u2, a2, u3] ∧
      List.IsSuffix (((smallService 40 0).TrimMessages charTokenizer "m"
        ([sys] ++ [u1, a1, u2, a2, u3])).1.filter (fun m => !isSystem m))
        [u1, a1, u2, a2, u3] ∧
      (smallService 40 0).CountTokens charTokenizer "m" ([sys] ++ [u2, a2, u3]) = .ok 33 ∧
      (smallService 40 0).CountTokens charTokenizer "m" ([sys] ++ a1 :: [u2, a2, u3])
        = .ok 46 ∧
      (∃ c, (smallService 40 0).CountTokens charTokenizer "m"
          ([sys] ++ a1 :: ((smallService 40 0).TrimMessages charTokenizer "m"
            ([sys] ++ [u1, a1, u2, a2, u3])).1.filter (fun m => !isSystem m)) = .ok c ∧
        (smallService 40 0).budget "m" < (c : Int))) ∧
    ((smallService 5 0).CountTokens charTokenizer "m" ([sys] ++ [u3]) = .ok 16 ∧
      (smallService 5 0).CountTokens charTokenizer "m" [sys] = .ok 10 ∧
      ((smallService 5 0).TrimMessages charTokenizer "m" ([sys] ++ [u3])).1.filter
        (fun m => !isSystem m) = [] ∧
      (∃ c, (smallService 5 0).CountTokens charTokenizer "m"
          ([sys] ++ u3 :: ((smallService 5 0).TrimMessages charTokenizer "m"
            ([sys] ++ [u3])).1.filter (fun m => !isSystem m)) = .ok c ∧
        (smallService 5 0).budget "m" < (c : Int))) :=
  ⟨⟨rfl, by decide,
      (TrimMessages_keeps_longest_suffix charTokenizer (smallService 40 0) "m" [sys]
        [u1, a1, u2, a2, u3] 54 (by decide) (by decide) rfl (by decide)).1,
      rfl, rfl,
      (TrimMessages_keeps_longest_suffix charTokenizer (smallService 40 0) "m" [sys]
        [u1, a1, u2, a2, u3] 54 (by decide) (by decide) rfl (by decide)).2.2.2.1 a1
        ⟨[u1], rfl⟩⟩,
    ⟨rfl, rfl,
      (TrimMessages_keeps_longest_suffix charTokenizer (smallService 5 0) "m" [sys]
        [u3] 16 (by decide) (by decide) rfl (by decide)).2.2.2.2 10 rfl (by decide),
      (TrimMessages_keeps_longest_suffix charTokenizer (smallService 5 0) "m" [sys]
        [u3] 16 (by decide) (by decide) rfl (by decide)).2.2.2.1 u3 ⟨[], rfl⟩⟩⟩

/-- Counterexample to C19 as stated. The history `[sys, u3]` is over the budget of 5 and
its only system message leads it; `sys` alone counts 10, so no suffix of the remainder
`[u3]`, the empty one included, has a count together with `sys` within the budget. The
non-system messages kept are the empty list, whose count together with `sys` is 10 > 5. -/
theorem TrimMessages_no_fitting_suffix :
    (smallService 5 0).budget "m" = 5 ∧
    (smallService 5 0).CountTokens charTokenizer "m" ([sys] ++ [u3]) = .ok 16 ∧
    ((smallService 5 0).TrimMessages charTokenizer "m" ([sys] ++ [u3])).1.filter
      (fun m => !isSystem m) = [] ∧
    (smallService 5 0).CountTokens charTokenizer "m"
      ([sys] ++ ((smallService 5 0).TrimMessages charTokenizer "m" ([sys] ++ [u3])).1.filter
        (fun m => !isSystem m)) = .ok 10 ∧
    ¬ ((10 : Nat) : Int) ≤ (smallService 5 0).budget "m" ∧
    (∀ T, List.IsSuffix T [u3] → ∀ c,
      (smallService 5 0).CountTokens charTokenizer "m" ([sys] ++ T) = .ok c →
      ¬ (c : Int) ≤ (smallService 5 0).budget "m") := by
  refine ⟨rfl, rfl, by decide, rfl, by decide, ?_⟩
  intro T hT c hc
  rcases List.suffix_cons_iff.mp hT with h | h
  · subst h
    have h16 : c = 16 := by
      have : (Except.ok 16 : Except String Nat) = .ok c := hc
      injection this with h1
      exact h1.symm
    subst h16
    decide
  · have hnil : T = [] := List.suffix_nil.mp h
    subst hnil
    have h10 : c = 10 := by
      have : (Except.ok 10 : Except String Nat) = .ok c := hc
      injection this with h1
      exact h1.symm
    subst h10
    decide

/-- C20: in the shipped configuration, model `gpt-35-turbo`, the over-budget history
`[essay, brief, hi]`, in which the system message `brief` comes after the user message
`essay`, is trimmed to `[brief, hi, brief]`: the system message occurs twice in the result
and once in the input, and the message in front of it is not in the result; the scan
gives this result whatever message stands in front, because it stops at the index equal
to the number of system messages. -/
theorem TrimMessages_duplicates_system :
    (NewOpenAIService "" "").TrimMessages charTokenizer "gpt-35-turbo" [essay, brief, hi]
      = ([brief, hi, brief], 37) ∧
    brief.Role = "system" ∧ essay.Role ≠ "system" ∧
    List.count brief [brief, hi, brief] = 2 ∧ List.count brief [essay, brief, hi] = 1 ∧
    essay ∉ [brief, hi, brief] ∧
    (∀ e : Message, trimLoop charTokenizer (NewOpenAIService "" "") "gpt-35-turbo" 3596
      [e, brief, hi] 1 3 [brief] = [brief, hi, brief]) := by
  have hover : (NewOpenAIService "" "").budget "gpt-35-turbo" <
      (countWith charEncoding [essay, brief, hi] : Int) := by
    rw [budget_default, countWith_char]
    simp only [List.map_cons, List.map_nil, List.sum_cons, List.sum_nil,
      brief, essay, hi, longText_length]
    decide
  have hloop : ∀ e : Message, trimLoop charTokenizer (NewOpenAIService "" "") "gpt-35-turbo"
      3596 [e, brief, hi] 1 3 [brief] = [brief, hi, brief] := by
    intro e
    rw [trimLoop_keep _ _ _ _ _ _ charEncoding (CountTokens_charTokenizer _ _) 2 hi [brief]
        (by decide) rfl (by decide),
      trimLoop_keep _ _ _ _ _ _ charEncoding (CountTokens_charTokenizer _ _) 1 brief
        ([hi] ++ [brief]) (by decide) rfl (by decide),
      trimLoop_stop _ _ _ _ _ 1 1 (Nat.le_refl _)]
    rfl
  have hf : [essay, brief, hi].filter isSystem = [brief] := rfl
  have hlen : [essay, brief, hi].length = 3 := rfl
  have h1 : [brief].length = 1 := rfl
  refine ⟨?_, rfl, by decide, by decide, by decide, by decide, hloop⟩
  rw [TrimMessages_of_over _ _ _ _ charEncoding (CountTokens_charTokenizer _ _)
    (by rw [budget_default]; decide) hover, hf, hlen, h1, budget_default, hloop essay]
  rfl

/-! ## Failure notices (C18) -/

/-- C18 (amended): when a completion fails, the texts sent to the user do not depend on the
error: the merged bot sends the fixed notice `從 AI 獲取回應時發生錯誤。`, the host bot the
fixed notice `AI 服務暫時不可用，請稍後再試或檢查配置。` (after the length warning, which
depends on the token count only). When a video generation fails, the handler sends
`影片生成失敗: ` followed by the text of the error returned by `GenerateVideo`. -/
theorem failure_notice_texts :
    (∀ (cw : ChatWorld) (trim : String → List Message → List Message × Nat)
        (deploymentName : String) (chatID : Int) (text : String) (loaded : List Message)
        (err : String),
      cw.GetMessages chatID = .ok loaded → deploymentName ≠ "" →
      cw.GetChatCompletion "" deploymentName
        (trim deploymentName (loaded ++ [⟨"user", text⟩])).1 = .error err →
      sentTexts (handleChatCompletion cw trim deploymentName chatID text)
        = ["從 AI 獲取回應時發生錯誤。"]) ∧
    (∀ (cw : ChatWorld) (tk : Tokenizer) (s : OpenAIService) (exceeds : Nat → Int → Bool)
        (roomConfig : RoomConfig) (chatID : Int) (messageText : String)
        (loaded : List Message) (err : String),
      cw.GetMessages chatID = .ok loaded →
      cw.GetChatCompletion roomConfig.APIKey roomConfig.ModelName
        (s.TrimMessages tk roomConfig.ModelName (loaded ++ [⟨"user", messageText⟩])).1
          = .error err →
      sentTexts (chatTurn cw tk s exceeds roomConfig chatID messageText)
        = (if exceeds
              (s.TrimMessages tk roomConfig.ModelName (loaded ++ [⟨"user", messageText⟩])).2
              (s.GetModelMaxTokens roomConfig.ModelName) then
            ["ℹ️ 對話歷史已過長，為保證 AI 回應品質，將自動清除部分早期對話。"]
          else []) ++ ["AI 服務暫時不可用，請稍後再試或檢查配置。"]) ∧
    (∀ (w : World) (fw : FileWorld) (s : SoraService) (chatID : Int) (text err : String)
        (trace : List Event),
      trimSpace (dropLeading "/video" text) ≠ "" →
      s.GenerateVideo w chatID (trimSpace (dropLeading "/video" text)) = (.error err, trace) →
      handleVideoCommand w fw s chatID text
        = trace ++ [Event.sendMessage chatID ("影片生成失敗: " ++ err)]) := by
  refine ⟨?_, ?_, ?_⟩
  · intro cw trim deploymentName chatID text loaded err hget hdep hfail
    unfold handleChatCompletion
    simp only [hget, if_neg hdep, hfail]
    rfl
  · intro cw tk s exceeds roomConfig chatID messageText loaded err hget hfail
    unfold chatTurn
    simp only [hget, hfail]
    split <;> rfl
  · intro w fw s chatID text err trace hprompt hgen
    unfold handleVideoCommand
    rw [if_neg hprompt, hgen]

/-- Witness of C18 (amended): a failing completion in both bots and a video job that
ends `failed`. -/
theorem failure_notice_texts_witness :
    sentTexts (handleChatCompletion (failingChat [sys] "status 429") (fun _ m => (m, 0))
      "gpt-4.1-nano" 7 "hello") = ["從 AI 獲取回應時發生錯誤。"] ∧
    sentTexts (chatTurn (failingChat [sys] "status 429") charTokenizer
      (NewOpenAIService "" "") (fun _ _ => false) ⟨7, "key", true, "gpt-4"⟩ 7 "hello")
      = ["AI 服務暫時不可用，請稍後再試或檢查配置。"] ∧
    handleVideoCommand failedWorld plainFiles soraService 7 "/video a cat"
      = (soraService.GenerateVideo failedWorld 7 "a cat").2 ++
        [Event.sendMessage 7 "影片生成失敗: SoraService: 影片生成任務未成功。最終狀態: failed"] :=
  ⟨failure_notice_texts.1 (failingChat [sys] "status 429") (fun _ m => (m, 0))
      "gpt-4.1-nano" 7 "hello" [sys] "status 429" rfl (by decide) rfl,
    failure_notice_texts.2.1 (failingChat [sys] "status 429") charTokenizer
      (NewOpenAIService "" "") (fun _ _ => false) ⟨7, "key", true, "gpt-4"⟩ 7 "hello" [sys]
      "status 429" rfl rfl,
    failure_notice_texts.2.2 failedWorld plainFiles soraService 7 "/video a cat"
      "SoraService: 影片生成任務未成功。最終狀態: failed" _ (by decide) rfl⟩

/-- Counterexample to C18 as stated: two video generations that fail with different
details (the creation request answered with HTTP 500 and with HTTP 503) give different
texts to the user, each containing the detail. -/
theorem video_failure_text_varies :
    sentTexts (handleVideoCommand (rejectedWorld 500) plainFiles soraService 7 "/video a cat")
      = ["開始生成影片... 🎬",
        "影片生成失敗: SoraService: 提交影片生成請求失敗，狀態碼: 500，回應內容: "] ∧
    sentTexts (handleVideoCommand (rejectedWorld 503) plainFiles soraService 7 "/video a cat")
      = ["開始生成影片... 🎬",
        "影片生成失敗: SoraService: 提交影片生成請求失敗，狀態碼: 503，回應內容: "] ∧
    sentTexts (handleVideoCommand (rejectedWorld 500) plainFiles soraService 7 "/video a cat")
      ≠ sentTexts (handleVideoCommand (rejectedWorld 503) plainFiles soraService 7
          "/video a cat") := by
  decide

/-! ## The persisted history (C21) -/

/-- C21: in both chat handlers, when the history `loaded` has been read and the completion
succeeds with `response`, the one history saved for the room is `loaded` followed by the
new user message and the assistant reply, whatever the trimming returns; the trimmed list
is the argument of the one completion request. This holds for every trimming function in
the merged bot and for `TrimMessages` with every tokenizer and service in the host bot. -/
theorem saved_history_is_untrimmed :
    (∀ (cw : ChatWorld) (trim : String → List Message → List Message × Nat)
        (deploymentName : String) (chatID : Int) (text : String) (loaded : List Message)
        (response : String),
      cw.GetMessages chatID = .ok loaded → deploymentName ≠ "" →
      cw.GetChatCompletion "" deploymentName
        (trim deploymentName (loaded ++ [⟨"user", text⟩])).1 = .ok response →
      (handleChatCompletion cw trim deploymentName chatID text).filter Event.isSave
          = [Event.saveMessages chatID
              (loaded ++ [⟨"user", text⟩, ⟨"assistant", response⟩])] ∧
        (handleChatCompletion cw trim deploymentName chatID text).filter Event.isCompletion
          = [Event.completion "" deploymentName
              (trim deploymentName (loaded ++ [⟨"user", text⟩])).1]) ∧
    (∀ (cw : ChatWorld) (tk : Tokenizer) (s : OpenAIService) (exceeds : Nat → Int → Bool)
        (roomConfig : RoomConfig) (chatID : Int) (messageText : String)
        (loaded : List Message) (response : String),
      cw.GetMessages chatID = .ok loaded →
      cw.GetChatCompletion roomConfig.APIKey roomConfig.ModelName
        (s.TrimMessages tk roomConfig.ModelName (loaded ++ [⟨"user", messageText⟩])).1
          = .ok response →
      (chatTurn cw tk s exceeds roomConfig chatID messageText).filter Event.isSave
          = [Event.saveMessages chatID
              (loaded ++ [⟨"user", messageText⟩, ⟨"assistant", response⟩])] ∧
        (chatTurn cw tk s exceeds roomConfig chatID messageText).filter Event.isCompletion
          = [Event.completion roomConfig.APIKey roomConfig.ModelName
              (s.TrimMessages tk roomConfig.ModelName
                (loaded ++ [⟨"user", messageText⟩])).1]) := by
  constructor
  · intro cw trim deploymentName chatID text loaded response hget hdep hok
    unfold handleChatCompletion
    simp only [hget, if_neg hdep, hok]
    simp [List.filter, Event.isSave, Event.isCompletion]
  · intro cw tk s exceeds roomConfig chatID messageText loaded response hget hok
    unfold chatTurn
    simp only [hget, hok]
    split <;> simp [List.filter, Event.isSave, Event.isCompletion]

/-- Witness of C21: the merged bot with a trimming that keeps the last message only, and
the host bot with the six-message history under a budget of 40, where `u1` and `a1` are
trimmed away from the request and kept in the saved history. -/
theorem saved_history_is_untrimmed_witness :
    ((handleChatCompletion (answeringChat [sys, u1, a1] "hi!") keepLast "gpt-4.1-nano" 7
        "hello").filter Event.isSave
        = [Event.saveMessages 7 [sys, u1, a1, ⟨"user", "hello"⟩, ⟨"assistant", "hi!"⟩]] ∧
      (handleChatCompletion (answeringChat [sys, u1, a1] "hi!") keepLast "gpt-4.1-nano" 7
        "hello").filter Event.isCompletion
        = [Event.completion "" "gpt-4.1-nano" [⟨"user", "hello"⟩]]) ∧
    ((chatTurn (answeringChat [sys, u1, a1, u2, a2] "hi!") charTokenizer (smallService 40 0)
        (fun _ _ => false) ⟨7, "key", true, "m"⟩ 7 "ee").filter Event.isSave
        = [Event.saveMessages 7 [sys, u1, a1, u2, a2, u3, ⟨"assistant", "hi!"⟩]] ∧
      (chatTurn (answeringChat [sys, u1, a1, u2, a2] "hi!") charTokenizer (smallService 40 0)
        (fun _ _ => false) ⟨7, "key", true, "m"⟩ 7 "ee").filter Event.isCompletion
        = [Event.completion "key" "m" [u2, a2, u3, sys]]) :=
  ⟨saved_history_is_untrimmed.1 (answeringChat [sys, u1, a1] "hi!") keepLast "gpt-4.1-nano" 7
      "hello" [sys, u1, a1] "hi!" rfl (by decide) rfl,
    saved_history_is_untrimmed.2 (answeringChat [sys, u1, a1, u2, a2] "hi!") charTokenizer
      (smallService 40 0) (fun _ _ => false) ⟨7, "key", true, "m"⟩ 7 "ee"
      [sys, u1, a1, u2, a2] "hi!" rfl rfl⟩

/-! ## Rooms that are not approved (C22) -/

/-- C22 (amended): for a message from a room that has no stored configuration or whose
configuration has `approved = false`, the merged handler sends its not-authorised notice
and does nothing else; the host handler does the same with its not-enabled notice when the
trimmed text does not start with `/start`; when it starts with `/start` the host handler
runs the start command instead. In all three cases there is no completion request, no
video generation and no read or write of the conversation history. -/
theorem unapproved_room_gate :
    (∀ (token deploymentName : String) (store : RoomStore) (cw : ChatWorld)
        (trim : String → List Message → List Message × Nat) (w : World) (fw : FileWorld)
        (s : SoraService) (req : Request) (message : IncomingMessage),
      req.Path = "/telegram_webhook/" ++ token → req.Body = .ok ⟨some message⟩ →
      (store.GetRoomConfig message.ChatID = .ok none ∨
        ∃ rc, store.GetRoomConfig message.ChatID = .ok (some rc) ∧ rc.Approved = false) →
      HandleTelegramWebhook token deploymentName store cw trim w fw s req
        = [Event.getRoomConfig message.ChatID,
            Event.sendMessage message.ChatID mergedNotAuthorisedText,
            Event.writeHeader 200]) ∧
    (∀ (token apiKey defaultDeployment : String) (store : RoomStore) (cw : ChatWorld)
        (tk : Tokenizer) (s : OpenAIService) (exceeds : Nat → Int → Bool) (req : Request)
        (message : IncomingMessage),
      req.Path = "/telegram_webhook/" ++ token → req.Body = .ok ⟨some message⟩ →
      (store.GetRoomConfig message.ChatID = .ok none ∨
        ∃ rc, store.GetRoomConfig message.ChatID = .ok (some rc) ∧ rc.Approved = false) →
      (hasLeading "/start" (trimSpace message.Text) = false →
        HandleUpdate token apiKey defaultDeployment store cw tk s exceeds req
          = [Event.getRoomConfig message.ChatID,
              Event.sendMessage message.ChatID hostNotEnabledText,
              Event.writeHeader 200]) ∧
      (hasLeading "/start" (trimSpace message.Text) = true →
        HandleUpdate token apiKey defaultDeployment store cw tk s exceeds req
          = handleStartCommand store apiKey defaultDeployment message.ChatID
              message.UserName ++ [Event.writeHeader 200]) ∧
      (HandleUpdate token apiKey defaultDeployment store cw tk s exceeds req).filter
        Event.isGuarded = []) := by
  constructor
  · intro token deploymentName store cw trim w fw s req message hpath hbody hroom
    unfold HandleTelegramWebhook
    simp only [hpath, ne_eq, not_true_eq_false, if_false, hbody]
    rcases hroom with h | ⟨rc, h, hrc⟩
    · simp only [h]
      rfl
    · simp only [h, hrc, if_true]
      rfl
  · intro token apiKey defaultDeployment store cw tk s exceeds req message hpath hbody hroom
    have hplain : hasLeading "/start" (trimSpace message.Text) = false →
        HandleUpdate token apiKey defaultDeployment store cw tk s exceeds req
          = [Event.getRoomConfig message.ChatID,
              Event.sendMessage message.ChatID hostNotEnabledText,
              Event.writeHeader 200] := by
      intro hstart
      unfold HandleUpdate
      simp only [hpath, ne_eq, not_true_eq_false, if_false, hbody, hstart]
      rcases hroom with h | ⟨rc, h, hrc⟩
      · simp only [h]
        rfl
      · simp only [h, hrc, true_or, if_true]
        rfl
    have hstartcmd : hasLeading "/start" (trimSpace message.Text) = true →
        HandleUpdate token apiKey defaultDeployment store cw tk s exceeds req
          = handleStartCommand store apiKey defaultDeployment message.ChatID
              message.UserName ++ [Event.writeHeader 200] := by
      intro hstart
      unfold HandleUpdate
      simp only [hpath, ne_eq, not_true_eq_false, if_false, hbody, hstart, if_true]
    refine ⟨hplain, hstartcmd, ?_⟩
    cases hstart : hasLeading "/start" (trimSpace message.Text) with
    | false =>
      rw [hplain hstart]
      rfl
    | true =>
      rw [hstartcmd hstart]
      unfold handleStartCommand
      rcases hroom with h | ⟨rc, h, hrc⟩
      · simp only [h]
        split <;> rfl
      · simp only [h, hrc, if_true]
        rfl

/-- Witness of C22 (amended): the text `hello` from a room without configuration, in both
bots, and the text `/start` from an unapproved room in the host bot. -/
theorem unapproved_room_gate_witness :
    HandleTelegramWebhook "token" "gpt-4.1-nano" (storeWith none) (answeringChat [sys] "hi!")
        keepLast scenarioWorld plainFiles soraService (textFrom "hello")
      = [Event.getRoomConfig 7, Event.sendMessage 7 mergedNotAuthorisedText,
          Event.writeHeader 200] ∧
    HandleUpdate "token" "key" "gpt-4.1-nano" (storeWith none) (answeringChat [sys] "hi!")
        charTokenizer (NewOpenAIService "" "") (fun _ _ => false) (textFrom "hello")
      = [Event.getRoomConfig 7, Event.sendMessage 7 hostNotEnabledText,
          Event.writeHeader 200] ∧
    (HandleUpdate "token" "key" "gpt-4.1-nano" (storeWith (some ⟨7, "key", false, "gpt-4"⟩))
        (answeringChat [sys] "hi!") charTokenizer (NewOpenAIService "" "")
        (fun _ _ => false) (textFrom "/start")).filter Event.isGuarded = [] :=
  ⟨unapproved_room_gate.1 "token" "gpt-4.1-nano" (storeWith none) (answeringChat [sys] "hi!")
      keepLast scenarioWorld plainFiles soraService (textFrom "hello") ⟨7, "hello", "ann", false, ""⟩
      rfl rfl (Or.inl rfl),
    (unapproved_room_gate.2 "token" "key" "gpt-4.1-nano" (storeWith none)
      (answeringChat [sys] "hi!") charTokenizer (NewOpenAIService "" "") (fun _ _ => false)
      (textFrom "hello") ⟨7, "hello", "ann", false, ""⟩ rfl rfl (Or.inl rfl)).1 (by decide),
    (unapproved_room_gate.2 "token" "key" "gpt-4.1-nano"
      (storeWith (some ⟨7, "key", false, "gpt-4"⟩)) (answeringChat [sys] "hi!") charTokenizer
      (NewOpenAIService "" "") (fun _ _ => false) (textFrom "/start")
      ⟨7, "/start", "ann", false, ""⟩ rfl rfl (Or.inr ⟨_, rfl, rfl⟩)).2.2⟩

/-- Counterexample to C22 as stated: in the host bot the text `/start` from a room without
stored configuration, and from a room whose configuration has `approved = false`, is not
answered with the not-enabled notice but with the texts of the start command (and a new
configuration is saved for the room without one). -/
theorem HandleUpdate_start_not_notice :
    HandleUpdate "token" "key" "gpt-4.1-nano" (storeWith none) (answeringChat [sys] "hi!")
        charTokenizer (NewOpenAIService "" "") (fun _ _ => false) (textFrom "/start")
      = [Event.getRoomConfig 7, Event.saveRoomConfig 7,
          Event.sendMessage 7
            "您好 ann！此聊天室 ID 為 `7`。\n請管理員透過後台 API 審批即可啟用 AI 功能。",
          Event.writeHeader 200] ∧
    HandleUpdate "token" "key" "gpt-4.1-nano" (storeWith (some ⟨7, "key", false, "gpt-4"⟩))
        (answeringChat [sys] "hi!") charTokenizer (NewOpenAIService "" "")
        (fun _ _ => false) (textFrom "/start")
      = [Event.getRoomConfig 7,
          Event.sendMessage 7 "此聊天室 ID 為 `7`。AI 功能尚未啟用。\n請等待管理員審批。謝謝！",
          Event.writeHeader 200] ∧
    hostNotEnabledText ∉ sentTexts (HandleUpdate "token" "key" "gpt-4.1-nano" (storeWith none)
      (answeringChat [sys] "hi!") charTokenizer (NewOpenAIService "" "") (fun _ _ => false)
      (textFrom "/start")) ∧
    hostNotEnabledText ∉ sentTexts (HandleUpdate "token" "key" "gpt-4.1-nano"
      (storeWith (some ⟨7, "key", false, "gpt-4"⟩)) (answeringChat [sys] "hi!") charTokenizer
      (NewOpenAIService "" "") (fun _ _ => false) (textFrom "/start")) := by
  decide

end TelegramBot
